import Mathlib

/-!
Shallow embedding of the agent-based COVID model from `src/covid_model.py`
(classes `Agent` and `CovidModel`).

Randomness: the source draws all randomness from shared generators
(`scipy.stats.bernoulli.rvs`, `np.random`, `self.random`).  We model the
generator as an explicit stream of uniform draws in `[0,1)` (rationals),
consumed in the order the source consumes them.  `bernoulli.rvs p` is a
comparison of one uniform draw with `p`; `randrange n` / `randint` map one
uniform draw to an integer by scaling and flooring.  (The source's samplers
raise `ValueError` for a probability outside `[0,1]` or an empty integer
range; the main embedding is total, and the fallible variants
`bernoulliRvsE`, `randbelowE`, `Agent.initE`, `createAgentsE` and
`CovidModel.initE` make those library error paths explicit where they
matter, namely during construction.  The source performs no validation of
its own: see the C4 theorems.)

The mesa library pieces the source uses (`RandomActivation`, `MultiGrid`,
`DataCollector`) are not part of this repository's sources; where the model
depends on them they are modelled from the spec, as noted on each definition.
-/

/-- One uniform draw in `[0,1)`, the primitive the shared random generator
produces. -/
def Unit01 : Type := {q : ℚ // 0 ≤ q ∧ q < 1}

instance : DecidableEq Unit01 := fun a b =>
  decidable_of_iff (a.val = b.val) Subtype.ext_iff.symm

/-- The shared random generator: a stream of uniform draws, consumed in
source order. -/
def RNG : Type := ℕ → Unit01

/-- The next uniform draw. -/
def RNG.head (g : RNG) : Unit01 := g 0

/-- The generator after consuming one draw. -/
def RNG.tail (g : RNG) : RNG := fun n => g (n + 1)

/-- `scipy.stats.bernoulli.rvs p`: one Bernoulli trial with success
probability `p`, realised by comparing one uniform draw with `p`. -/
def bernoulliRvs (p : ℚ) (u : Unit01) : Bool := decide (u.val < p)

/-- `random.randrange n` / `np.random.randint` style draw: a uniform
integer in `[0, n)` obtained by scaling one uniform draw, i.e.
`⌊u * n⌋`, here computed on the numerator and denominator directly
(see `randbelow_eq_floor`). -/
def randbelow (n : ℕ) (u : Unit01) : ℕ := u.val.num.toNat * n / u.val.den

/-- `np.random.choice([-1, 0, 1])`: a uniform element of `{-1, 0, 1}`. -/
def choice3 (u : Unit01) : ℤ := (randbelow 3 u : ℤ) - 1

/-- Fallible `scipy.stats.bernoulli.rvs p`: scipy's argument check raises
`ValueError` when `p` lies outside `[0,1]`; otherwise the draw is
`bernoulliRvs`. -/
def bernoulliRvsE (p : ℚ) (u : Unit01) : Except String Bool :=
  if 0 ≤ p ∧ p ≤ 1 then Except.ok (bernoulliRvs p u) else Except.error "ValueError"

/-- Fallible `random.randrange n` / `np.random.randint` draw: an empty
range (`n = 0`) raises `ValueError`; otherwise the draw is `randbelow`. -/
def randbelowE (n : ℕ) (u : Unit01) : Except String ℕ :=
  if 0 < n then Except.ok (randbelow n u) else Except.error "ValueError"

/-- The model configuration passed to `CovidModel.__init__`
(`isolation_enabled` is the string `'是'`/`'否'` in the source; it is
modelled as a `Bool`, `true` meaning enabled, i.e. not `'否'`). -/
structure Config where
  no_agents : ℕ
  width : ℕ
  height : ℕ
  infected_import : ℚ
  init_infected : ℚ
  perc_masked : ℚ
  prob_trans_masked : ℚ
  prob_trans_unmasked : ℚ
  prob_fatal : ℚ
  infection_period : ℕ
  immunity_period : ℕ
  isolation_enabled : Bool
deriving DecidableEq

/-- One agent of the simulation (class `Agent`).  `pos` is the grid
position mesa's `MultiGrid` stores for the agent; grid cell contents are
recovered by filtering the population on `pos`. -/
@[ext]
structure Agent where
  unique_id : ℕ
  masked : Bool
  infected : Bool
  immune : Bool
  fatal : Bool
  lockdown : Bool
  recovery_countdown : ℕ
  immunity_countdown : ℕ
  pos : ℤ × ℤ
deriving DecidableEq

/-- `Agent.__init__`: draws `masked` and `infected`, zeroes the remaining
state, and if infected draws a staggered recovery countdown
`np.random.randint(1, infection_period + 1)`.  The position is a
placeholder here; the source places the agent on the grid right after
construction, which the callers below do. -/
def Agent.init (uid : ℕ) (cfg : Config) (g : RNG) : Agent × RNG :=
  let masked := bernoulliRvs cfg.perc_masked g.head
  let g := g.tail
  let infected := bernoulliRvs cfg.init_infected g.head
  let g := g.tail
  let base : Agent :=
    { unique_id := uid, masked := masked, infected := infected, immune := false,
      fatal := false, lockdown := false, recovery_countdown := 0,
      immunity_countdown := 0, pos := (0, 0) }
  if infected then
    ({ base with recovery_countdown := 1 + randbelow cfg.infection_period g.head }, g.tail)
  else (base, g)

/-- `Agent.__init__` with the sampling library's error behaviour explicit:
the `masked` and `infected` draws raise `ValueError` inside
`ss.bernoulli.rvs` when their probability lies outside `[0,1]`, and the
staggered `np.random.randint(1, infection_period + 1)` raises on an empty
range (`infection_period = 0`), each at the moment the source attempts the
draw.  The constructor itself checks nothing. -/
def Agent.initE (uid : ℕ) (cfg : Config) (g : RNG) : Except String (Agent × RNG) :=
  match bernoulliRvsE cfg.perc_masked g.head with
  | Except.error e => Except.error e
  | Except.ok masked =>
    match bernoulliRvsE cfg.init_infected g.tail.head with
    | Except.error e => Except.error e
    | Except.ok infected =>
      let base : Agent :=
        { unique_id := uid, masked := masked, infected := infected, immune := false,
          fatal := false, lockdown := false, recovery_countdown := 0,
          immunity_countdown := 0, pos := (0, 0) }
      if infected then
        match randbelowE cfg.infection_period g.tail.tail.head with
        | Except.error e => Except.error e
        | Except.ok c =>
            Except.ok ({ base with recovery_countdown := 1 + c }, g.tail.tail.tail)
      else Except.ok (base, g.tail.tail)

/-- `Agent.move`: both coordinate draws happen unconditionally, each offset
is clamped to `[0, width-1]` resp. `[0, height-1]`, and the move is applied
only when the agent is not in lockdown. -/
def Agent.move (a : Agent) (width height : ℕ) (g : RNG) : Agent × RNG :=
  let new_x : ℤ := min (max (choice3 g.head + a.pos.1) 0) ((width : ℤ) - 1)
  let g := g.tail
  let new_y : ℤ := min (max (choice3 g.head + a.pos.2) 0) ((height : ℤ) - 1)
  let g := g.tail
  if a.lockdown then (a, g) else ({ a with pos := (new_x, new_y) }, g)

/-- `Agent.update_infected`: an infected or immune agent returns at once;
otherwise the cell occupants (`grid.get_cell_list_contents`, here the
population filtered on `pos`) are checked for an infected, non-lockdown
agent, in which case one transmission Bernoulli draw (masked or unmasked
probability) is made; finally, if the agent is (now) infected, the recovery
countdown is set to `infection_period` and `fatal` is drawn afresh with
probability `prob_fatal`.  (The source's `elif ~self.masked` branch is
always truthy for an unmasked agent, so the pair behaves as if/else.) -/
def Agent.update_infected (a : Agent) (cfg : Config) (gridAgents : List Agent)
    (g : RNG) : Agent × RNG :=
  if a.infected || a.immune then (a, g)
  else
    let cell_agents := gridAgents.filter (fun b => b.pos = a.pos)
    let any_infected := cell_agents.any (fun b => b.infected && !b.lockdown)
    let ag :=
      if any_infected then
        if a.masked then
          ({ a with infected := bernoulliRvs cfg.prob_trans_masked g.head }, g.tail)
        else
          ({ a with infected := bernoulliRvs cfg.prob_trans_unmasked g.head }, g.tail)
      else (a, g)
    if ag.1.infected then
      ({ ag.1 with recovery_countdown := cfg.infection_period,
                   fatal := bernoulliRvs cfg.prob_fatal ag.2.head }, ag.2.tail)
    else ag

/-- `Agent.update_recovered`: at countdown 1 the agent recovers into the
immune state and the immunity countdown starts; any positive countdown is
then decremented. -/
def Agent.update_recovered (a : Agent) (cfg : Config) : Agent :=
  let a1 :=
    if a.recovery_countdown = 1 then
      { a with infected := false, immune := true,
               immunity_countdown := cfg.immunity_period }
    else a
  if a1.recovery_countdown > 0 then
    { a1 with recovery_countdown := a1.recovery_countdown - 1 }
  else a1

/-- `Agent.update_susceptible`: at countdown 1 immunity lapses; any
positive countdown is then decremented. -/
def Agent.update_susceptible (a : Agent) : Agent :=
  let a1 := if a.immunity_countdown = 1 then { a with immune := false } else a
  if a1.immunity_countdown > 0 then
    { a1 with immunity_countdown := a1.immunity_countdown - 1 }
  else a1

/-- `Agent.update_lockdown`: in Python, `not self.infected | self.immune`
parses as `not (self.infected | self.immune)`; a susceptible agent, or any
agent when isolation is disabled, leaves lockdown, otherwise lockdown is
drawn with probability 0.9. -/
def Agent.update_lockdown (a : Agent) (cfg : Config) (g : RNG) : Agent × RNG :=
  if !(a.infected || a.immune) || !cfg.isolation_enabled then
    ({ a with lockdown := false }, g)
  else
    ({ a with lockdown := bernoulliRvs (9 / 10) g.head }, g.tail)

/-- The model state (`CovidModel`).  `agents` is the scheduler's population
in insertion order; `collected` is the data collector's per-step record of
`(susceptible, infected, death, immune)` counts; `created` is a ghost
counter of agents ever created (the initial population plus every imported
agent), not present in the source, used to state population conservation. -/
structure CovidModel where
  cfg : Config
  agents : List Agent
  deaths : ℕ
  created : ℕ
  collected : List (ℕ × ℕ × ℕ × ℕ)
deriving DecidableEq

/-- The `susceptible` property: agents with `not (immune | infected)`. -/
def CovidModel.susceptible (m : CovidModel) : ℕ :=
  (m.agents.filter (fun a => !(a.immune || a.infected))).length

/-- The `infected` property: count of infected agents. -/
def CovidModel.infected (m : CovidModel) : ℕ :=
  (m.agents.filter (fun a => a.infected)).length

/-- The `immune` property: count of immune agents. -/
def CovidModel.immune (m : CovidModel) : ℕ :=
  (m.agents.filter (fun a => a.immune)).length

/-- The `death` property: the cumulative deaths counter. -/
def CovidModel.death (m : CovidModel) : ℕ := m.deaths

/-- The agent-creation loop of `CovidModel.__init__`: create `k` agents
with consecutive ids starting at `uid`, placing each at a uniformly random
grid cell (`self.random.randrange(width)`, `randrange(height)`). -/
def createAgents (cfg : Config) : ℕ → ℕ → RNG → List Agent × RNG
  | _, 0, g => ([], g)
  | uid, k + 1, g =>
      let ag := Agent.init uid cfg g
      let x := randbelow cfg.width ag.2.head
      let g1 := ag.2.tail
      let y := randbelow cfg.height g1.head
      let g2 := g1.tail
      let a := { ag.1 with pos := ((x : ℤ), (y : ℤ)) }
      let rest := createAgents cfg (uid + 1) k g2
      (a :: rest.1, rest.2)

/-- The agent-creation loop with the sampling library's error behaviour
explicit: the constructor draws can raise as in `Agent.initE`, and the
placement draws `self.random.randrange(width)` / `randrange(height)` raise
`ValueError` on an empty range (a zero dimension), each at the moment the
loop attempts the draw.  A loop over zero agents attempts no draw. -/
def createAgentsE (cfg : Config) : ℕ → ℕ → RNG → Except String (List Agent × RNG)
  | _, 0, g => Except.ok ([], g)
  | uid, k + 1, g =>
    match Agent.initE uid cfg g with
    | Except.error e => Except.error e
    | Except.ok ag =>
      match randbelowE cfg.width ag.2.head with
      | Except.error e => Except.error e
      | Except.ok x =>
        match randbelowE cfg.height ag.2.tail.head with
        | Except.error e => Except.error e
        | Except.ok y =>
          match createAgentsE cfg (uid + 1) k ag.2.tail.tail with
          | Except.error e => Except.error e
          | Except.ok rest =>
              Except.ok ({ ag.1 with pos := ((x : ℤ), (y : ℤ)) } :: rest.1, rest.2)

/-- `CovidModel.__init__`: store the configuration, create agents `0` to
`no_agents - 1` and place them; the deaths counter starts at 0 and nothing
has been collected yet.  No validation of the configuration is performed
anywhere in the source constructor. -/
def CovidModel.init (cfg : Config) (g : RNG) : CovidModel × RNG :=
  let ag := createAgents cfg 0 cfg.no_agents g
  ({ cfg := cfg, agents := ag.1, deaths := 0, created := cfg.no_agents,
     collected := [] }, ag.2)

/-- `CovidModel.__init__` with the sampling library's error behaviour
explicit: construction fails exactly when one of the agent-creation or
placement draws raises a `ValueError` inside scipy/numpy.  The constructor
performs no validation of its own and no `ConfigurationError` exists
anywhere in the source; parameters that are not sampled during
construction (`prob_fatal`, the transmission probabilities,
`infected_import`, `immunity_period`) are stored unchecked however
invalid. -/
def CovidModel.initE (cfg : Config) (g : RNG) : Except String (CovidModel × RNG) :=
  match createAgentsE cfg 0 cfg.no_agents g with
  | Except.error e => Except.error e
  | Except.ok ag =>
      Except.ok ({ cfg := cfg, agents := ag.1, deaths := 0,
                   created := cfg.no_agents, collected := [] }, ag.2)

/-- Swap two positions of a list (helper for the Fisher-Yates shuffle). -/
def listSwap (l : List ℕ) (i j : ℕ) : List ℕ :=
  match l[i]?, l[j]? with
  | some a, some b => (l.set i b).set j a
  | _, _ => l

/-- Modelled from the spec: mesa's `RandomActivation` visits the agents in
a freshly randomized order each step (a new random permutation drawn from
the shared generator).  This is the classic Fisher-Yates walk, one uniform
draw per loop index from `length - 1` down to `1`. -/
def shuffleAux : ℕ → List ℕ → RNG → List ℕ × RNG
  | 0, l, g => (l, g)
  | i + 1, l, g =>
      let j := randbelow (i + 2) g.head
      shuffleAux i (listSwap l (i + 1) j) g.tail

/-- Modelled from the spec: the freshly randomized visitation order for one
step. -/
def shuffle (l : List ℕ) (g : RNG) : List ℕ × RNG :=
  shuffleAux (l.length - 1) l g

/-- One agent's activation (`Agent.step`), rendered at the model level
because the agent mutates shared state: after `move` the grid already sees
the agent's new position, so the population list is updated between the
sub-steps exactly as the in-place mutation of the source does. -/
def activateAt (cfg : Config) (agents : List Agent) (i : ℕ) (g : RNG) :
    List Agent × RNG :=
  match agents[i]? with
  | none => (agents, g)
  | some a =>
      let mv := a.move cfg.width cfg.height g
      let agents1 := agents.set i mv.1
      let inf := mv.1.update_infected cfg agents1 mv.2
      let a2 := inf.1.update_recovered cfg
      let a3 := a2.update_susceptible
      let ld := a3.update_lockdown cfg inf.2
      (agents1.set i ld.1, ld.2)

/-- Activate the agents at the given (shuffled) indices, one after the
other, threading the evolving population and generator. -/
def activateList (cfg : Config) : List ℕ → List Agent → RNG → List Agent × RNG
  | [], agents, g => (agents, g)
  | i :: rest, agents, g =>
      let st := activateAt cfg agents i g
      activateList cfg rest st.1 st.2

/-- Modelled from the spec: `self.schedule.step()` activates every agent
live at the start of the step exactly once, in a freshly randomized order;
agents added later this step are not in the snapshot. -/
def scheduleStep (cfg : Config) (agents : List Agent) (g : RNG) :
    List Agent × RNG :=
  let ord := shuffle (List.range agents.length) g
  activateList cfg ord.1 agents ord.2

/-- The sweep loop of `CovidModel.remove_deaths` over a snapshot of the
scheduler's agents: for each fatal agent one Bernoulli(0.1) draw decides
removal (the draw is consumed only for fatal agents, as Python's `and`
short-circuits); returns the surviving agents, the number removed, and the
generator. -/
def removeDeathsAux : List Agent → RNG → List Agent × ℕ × RNG
  | [], g => ([], 0, g)
  | a :: rest, g =>
      if a.fatal then
        if bernoulliRvs (1 / 10) g.head then
          let r := removeDeathsAux rest g.tail
          (r.1, r.2.1 + 1, r.2.2)
        else
          let r := removeDeathsAux rest g.tail
          (a :: r.1, r.2.1, r.2.2)
      else
        let r := removeDeathsAux rest g
        (a :: r.1, r.2.1, r.2.2)

/-- `CovidModel.remove_deaths`: sweep the population and add the removals
to the deaths counter. -/
def CovidModel.remove_deaths (m : CovidModel) (g : RNG) : CovidModel × RNG :=
  let r := removeDeathsAux m.agents g
  ({ m with agents := r.1, deaths := m.deaths + r.2.1 }, r.2.2)

/-- `CovidModel.add_import_infected`: one Bernoulli(`infected_import`)
draw gates the import; on success a new agent is constructed with id
`self.random.randrange(9999, 999999)`, its `infected` flag is then forced
to `true` (overriding the constructor's own draw), it is added to the
scheduler and placed at a uniformly random grid cell. -/
def CovidModel.add_import_infected (m : CovidModel) (g : RNG) : CovidModel × RNG :=
  if bernoulliRvs m.cfg.infected_import g.head then
    let g1 := g.tail
    let uid := 9999 + randbelow (999999 - 9999) g1.head
    let g2 := g1.tail
    let ag := Agent.init uid m.cfg g2
    let a := { ag.1 with infected := true }
    let x := randbelow m.cfg.width ag.2.head
    let g3 := ag.2.tail
    let y := randbelow m.cfg.height g3.head
    let g4 := g3.tail
    let a2 := { a with pos := ((x : ℤ), (y : ℤ)) }
    ({ m with agents := m.agents ++ [a2], created := m.created + 1 }, g4)
  else (m, g.tail)

/-- `self.datacollector.collect(self)`: record the current
`(susceptible, infected, death, immune)` counts, in the source's column
order, before any mutation of this step. -/
def CovidModel.collect (m : CovidModel) : CovidModel :=
  { m with collected :=
      m.collected ++ [(m.susceptible, m.infected, m.death, m.immune)] }

/-- The first three phases of `CovidModel.step`: collect the observation,
activate the population, run the death sweep. -/
def CovidModel.preImport (m : CovidModel) (g : RNG) : CovidModel × RNG :=
  let m1 := m.collect
  let sc := scheduleStep m1.cfg m1.agents g
  CovidModel.remove_deaths { m1 with agents := sc.1 } sc.2

/-- `CovidModel.step`: collect, activate, sweep, then the outer import
gate `if bool(ss.bernoulli.rvs(self.infected_import))` in front of
`add_import_infected` (which repeats the same draw inside, so an import
needs two successes). -/
def CovidModel.step (m : CovidModel) (g : RNG) : CovidModel × RNG :=
  let pre := m.preImport g
  if bernoulliRvs pre.1.cfg.infected_import pre.2.head then
    pre.1.add_import_infected pre.2.tail
  else (pre.1, pre.2.tail)

/-- Iterate `CovidModel.step` the given number of times. -/
def CovidModel.stepN : ℕ → CovidModel → RNG → CovidModel × RNG
  | 0, m, g => (m, g)
  | n + 1, m, g =>
      let st := m.step g
      CovidModel.stepN n st.1 st.2

/-- Construct the model from a configuration and run `n` steps, all
randomness coming from the one shared generator. -/
def runModel (cfg : Config) (g : RNG) (n : ℕ) : CovidModel × RNG :=
  let im := CovidModel.init cfg g
  CovidModel.stepN n im.1 im.2

/-- The constant-zero generator, used for the concrete runs below. -/
def u0 : Unit01 := ⟨0, by norm_num⟩

/-- A concrete shared generator whose uniform draws are all `0`. -/
def gZero : RNG := fun _ => u0

/-- A small valid configuration (one agent, unit grid, no randomness in
effect) used to instantiate theorems with hypotheses. -/
def cfgW : Config :=
  { no_agents := 1, width := 1, height := 1, infected_import := 0,
    init_infected := 0, perc_masked := 0, prob_trans_masked := 0,
    prob_trans_unmasked := 0, prob_fatal := 0, infection_period := 1,
    immunity_period := 1, isolation_enabled := false }

/-- The one agent `cfgW` and `gZero` create. -/
def aW : Agent :=
  { unique_id := 0, masked := false, infected := false, immune := false,
    fatal := false, lockdown := false, recovery_countdown := 0,
    immunity_countdown := 0, pos := (0, 0) }

/-- A configuration inside the scope of claim C3: one agent, certain
initial infection, `infection_period = 5`, `prob_fatal = 0`; its
`immunity_period` is 2. -/
def cfgC3 : Config :=
  { no_agents := 1, width := 1, height := 1, infected_import := 0,
    init_infected := 1, perc_masked := 0, prob_trans_masked := 0,
    prob_trans_unmasked := 0, prob_fatal := 0, infection_period := 5,
    immunity_period := 2, isolation_enabled := false }

/-- A configuration with imports certain each step and an empty initial
population, driving the duplicate-id run of claim C5. -/
def cfgC5 : Config :=
  { no_agents := 0, width := 1, height := 1, infected_import := 1,
    init_infected := 0, perc_masked := 0, prob_trans_masked := 0,
    prob_trans_unmasked := 0, prob_fatal := 0, infection_period := 5,
    immunity_period := 5, isolation_enabled := false }

/-- An invalid configuration: `prob_fatal = 2` lies outside `[0,1]`,
yet construction succeeds because `prob_fatal` is never sampled at
construction (claim C4). -/
def cfgBad : Config :=
  { no_agents := 1, width := 1, height := 1, infected_import := 0,
    init_infected := 0, perc_masked := 0, prob_trans_masked := 0,
    prob_trans_unmasked := 0, prob_fatal := 2, infection_period := 5,
    immunity_period := 5, isolation_enabled := false }

/-- An invalid configuration whose `init_infected = 2` IS sampled while
constructing its one initial agent: the real constructor fails with a
`ValueError` from `ss.bernoulli.rvs`, not with a `ConfigurationError`
(claim C4). -/
def cfgRaise : Config :=
  { no_agents := 1, width := 1, height := 1, infected_import := 0,
    init_infected := 2, perc_masked := 0, prob_trans_masked := 0,
    prob_trans_unmasked := 0, prob_fatal := 0, infection_period := 5,
    immunity_period := 5, isolation_enabled := false }

/-- A configuration with certain unmasked transmission and zero fatality,
driving the fatal-flag overwrite run of claim C10. -/
def cfgT : Config :=
  { no_agents := 2, width := 1, height := 1, infected_import := 0,
    init_infected := 0, perc_masked := 0, prob_trans_masked := 0,
    prob_trans_unmasked := 1, prob_fatal := 0, infection_period := 5,
    immunity_period := 5, isolation_enabled := false }

/-- A susceptible agent that was previously flagged fatal (claim C10). -/
def aFatal : Agent :=
  { unique_id := 0, masked := false, infected := false, immune := false,
    fatal := true, lockdown := false, recovery_countdown := 0,
    immunity_countdown := 0, pos := (0, 0) }

/-- An infected cell-mate of `aFatal` (claim C10). -/
def aInf : Agent :=
  { unique_id := 1, masked := false, infected := true, immune := false,
    fatal := false, lockdown := false, recovery_countdown := 5,
    immunity_countdown := 0, pos := (0, 0) }

/-- An imported agent as produced by `add_import_infected` when the
constructor's own initial-infection draw came out false: infected is
forced, but the recovery countdown was never started (claim C9). -/
def Agent.stuckImport (a : Agent) : Prop :=
  a.infected = true ∧ a.immune = false ∧ a.recovery_countdown = 0 ∧
    a.fatal = false ∧ a.immunity_countdown = 0

/-- Position inside the grid `[0, w-1] × [0, h-1]` (claim C7). -/
def Agent.inGrid (a : Agent) (w h : ℕ) : Prop :=
  0 ≤ a.pos.1 ∧ a.pos.1 < (w : ℤ) ∧ 0 ≤ a.pos.2 ∧ a.pos.2 < (h : ℤ)

/-- The health components of an agent: infected, immune, the two
countdowns, and the fatal flag — the fields the recovery and
susceptibility updates read and write (claim C3). -/
def healthOf (a : Agent) : Bool × Bool × ℕ × ℕ × Bool :=
  (a.infected, a.immune, a.recovery_countdown, a.immunity_countdown, a.fatal)

/-- The configuration of the amended claim C3's witness: `cfgC3` with an
immunity period long enough that immunity cannot lapse within the five
observed steps. -/
def cfgC3W : Config :=
  { no_agents := 1, width := 1, height := 1, infected_import := 0,
    init_infected := 1, perc_masked := 0, prob_trans_masked := 0,
    prob_trans_unmasked := 0, prob_fatal := 0, infection_period := 5,
    immunity_period := 6, isolation_enabled := false }

/-- A concrete imported agent stuck in the infected state (claim C9). -/
def aStuck : Agent :=
  { unique_id := 9999, masked := false, infected := true, immune := false,
    fatal := false, lockdown := false, recovery_countdown := 0,
    immunity_countdown := 0, pos := (0, 0) }

/-- A concrete model holding the stuck agent `aStuck` (claim C9). -/
def mC9 : CovidModel :=
  { cfg := cfgC5, agents := [aStuck], deaths := 0, created := 1,
    collected := [] }

/-! ## Helper lemmas -/

theorem unit01_num_lt_den (u : Unit01) : u.val.num < (u.val.den : ℤ) := by
  have h1 : u.val < 1 := u.2.2
  have hden : (0 : ℚ) < (u.val.den : ℚ) := by exact_mod_cast u.val.den_pos
  by_contra hle
  push_neg at hle
  have h2 : (1 : ℚ) ≤ u.val := by
    calc (1 : ℚ) ≤ (u.val.num : ℚ) / (u.val.den : ℚ) := by
          rw [le_div_iff₀ hden, one_mul]
          exact_mod_cast hle
      _ = u.val := Rat.num_div_den u.val
  exact absurd h1 (not_lt.2 h2)

theorem randbelow_eq_floor (n : ℕ) (u : Unit01) :
    (randbelow n u : ℤ) = ⌊u.val * (n : ℚ)⌋ := by
  have hnum : (0 : ℤ) ≤ u.val.num := Rat.num_nonneg.2 u.2.1
  have hden : ((u.val.den : ℚ)) ≠ 0 := by
    exact_mod_cast u.val.den_pos.ne'
  have hval : u.val * (n : ℚ) = ((u.val.num * (n : ℕ) : ℤ) : ℚ) / ((u.val.den : ℕ) : ℚ) := by
    conv_lhs => rw [← Rat.num_div_den u.val]
    push_cast
    field_simp
  rw [hval, Rat.floor_intCast_div_natCast, randbelow, Int.natCast_div]
  push_cast
  rw [Int.toNat_of_nonneg hnum]

theorem randbelow_lt (n : ℕ) (u : Unit01) (hn : 0 < n) : randbelow n u < n := by
  have hden : 0 < u.val.den := u.val.den_pos
  have hnum : u.val.num.toNat < u.val.den := by
    have := unit01_num_lt_den u
    omega
  rw [randbelow, Nat.div_lt_iff_lt_mul hden]
  calc u.val.num.toNat * n < u.val.den * n :=
        Nat.mul_lt_mul_of_lt_of_le hnum (Nat.le_refl n) hn
    _ = n * u.val.den := Nat.mul_comm _ _

/-- Health-flag mutual exclusion for one agent. -/
def Agent.mutex (a : Agent) : Prop := a.infected = false ∨ a.immune = false

theorem move_spec (a : Agent) (w h : ℕ) (g : RNG) :
    ∃ p, (a.move w h g).1 = { a with pos := p } := by
  rw [Agent.move]
  split
  · exact ⟨a.pos, by ext <;> rfl⟩
  · exact ⟨_, rfl⟩

theorem update_infected_blocked (a : Agent) (cfg : Config) (l : List Agent)
    (g : RNG) (h : (a.infected || a.immune) = true) :
    a.update_infected cfg l g = (a, g) := by
  rw [Agent.update_infected, if_pos h]

theorem update_infected_spec (a : Agent) (cfg : Config) (l : List Agent) (g : RNG)
    (hi : a.infected = false) (hm : a.immune = false) :
    (a.update_infected cfg l g).1 = a ∨
      ∃ d, (a.update_infected cfg l g).1 =
        { a with infected := true, recovery_countdown := cfg.infection_period,
                 fatal := d } := by
  rw [Agent.update_infected, if_neg (by simp [hi, hm])]
  simp only
  split
  · split
    · by_cases hd : bernoulliRvs cfg.prob_trans_masked g.head = true
      · right
        refine ⟨bernoulliRvs cfg.prob_fatal g.tail.head, ?_⟩
        simp [hd]
      · left
        simp only [Bool.not_eq_true] at hd
        simp [hd, hi]
        ext <;> simp [hd, hi]
    · by_cases hd : bernoulliRvs cfg.prob_trans_unmasked g.head = true
      · right
        refine ⟨bernoulliRvs cfg.prob_fatal g.tail.head, ?_⟩
        simp [hd]
      · left
        simp only [Bool.not_eq_true] at hd
        ext <;> simp [hd, hi]
  · simp [hi]

theorem update_recovered_mutex (a : Agent) (cfg : Config) (h : a.mutex) :
    (a.update_recovered cfg).mutex := by
  rw [Agent.update_recovered]
  rcases h with h | h <;> · split <;> split <;> simp_all [Agent.mutex]

theorem update_susceptible_mutex (a : Agent) (h : a.mutex) :
    a.update_susceptible.mutex := by
  rw [Agent.update_susceptible]
  rcases h with h | h <;> · split <;> split <;> simp_all [Agent.mutex]

theorem update_lockdown_spec (a : Agent) (cfg : Config) (g : RNG) :
    ∃ b, (a.update_lockdown cfg g).1 = { a with lockdown := b } := by
  rw [Agent.update_lockdown]
  split
  · exact ⟨false, rfl⟩
  · exact ⟨_, rfl⟩

theorem update_infected_mutex (a : Agent) (cfg : Config) (l : List Agent)
    (g : RNG) (h : a.mutex) : ((a.update_infected cfg l g).1).mutex := by
  by_cases hb : (a.infected || a.immune) = true
  · rw [update_infected_blocked a cfg l g hb]
    exact h
  · simp only [Bool.or_eq_true, not_or, Bool.not_eq_true] at hb
    rcases update_infected_spec a cfg l g hb.1 hb.2 with heq | ⟨d, heq⟩
    · rw [heq]; exact h
    · rw [heq]; right; exact hb.2

theorem update_lockdown_mutex (a : Agent) (cfg : Config) (g : RNG)
    (h : a.mutex) : ((a.update_lockdown cfg g).1).mutex := by
  obtain ⟨b, hb⟩ := update_lockdown_spec a cfg g
  rw [hb]
  rcases h with h | h
  · left; exact h
  · right; exact h

theorem move_mutex (a : Agent) (w hgt : ℕ) (g : RNG) (h : a.mutex) :
    ((a.move w hgt g).1).mutex := by
  obtain ⟨p, hp⟩ := move_spec a w hgt g
  rw [hp]
  rcases h with h | h
  · left; exact h
  · right; exact h

theorem activateAt_length (cfg : Config) (agents : List Agent) (i : ℕ) (g : RNG) :
    ((activateAt cfg agents i g).1).length = agents.length := by
  rw [activateAt]
  split
  · rfl
  · simp [List.length_set]

theorem activateAt_mutex (cfg : Config) (agents : List Agent) (i : ℕ) (g : RNG)
    (h : ∀ a ∈ agents, a.mutex) :
    ∀ b ∈ (activateAt cfg agents i g).1, b.mutex := by
  rw [activateAt]
  split
  · exact h
  · next a ha =>
    intro b hb
    have hma : a.mutex := h a (List.getElem?_mem ha)
    have hmv : ((a.move cfg.width cfg.height g).1).mutex :=
      move_mutex a cfg.width cfg.height g hma
    have hmid : ∀ c ∈ agents.set i (a.move cfg.width cfg.height g).1, c.mutex := by
      intro c hc
      rcases List.mem_or_eq_of_mem_set hc with hc | rfl
      · exact h c hc
      · exact hmv
    rcases List.mem_or_eq_of_mem_set hb with hb | rfl
    · exact hmid b hb
    · exact update_lockdown_mutex _ cfg _
        (update_susceptible_mutex _ (update_recovered_mutex _ cfg
          (update_infected_mutex _ cfg _ _ hmv)))

theorem activateList_length (cfg : Config) (ord : List ℕ) :
    ∀ (agents : List Agent) (g : RNG),
      ((activateList cfg ord agents g).1).length = agents.length := by
  induction ord with
  | nil => intro agents g; rfl
  | cons i rest ih =>
      intro agents g
      rw [activateList, ih]
      exact activateAt_length cfg agents i g

theorem activateList_mutex (cfg : Config) (ord : List ℕ) :
    ∀ (agents : List Agent) (g : RNG), (∀ a ∈ agents, a.mutex) →
      ∀ b ∈ (activateList cfg ord agents g).1, b.mutex := by
  induction ord with
  | nil => intro agents g h; exact h
  | cons i rest ih =>
      intro agents g h
      exact ih _ _ (activateAt_mutex cfg agents i g h)

theorem scheduleStep_length (cfg : Config) (agents : List Agent) (g : RNG) :
    ((scheduleStep cfg agents g).1).length = agents.length := by
  rw [scheduleStep]
  exact activateList_length cfg _ agents _

theorem scheduleStep_mutex (cfg : Config) (agents : List Agent) (g : RNG)
    (h : ∀ a ∈ agents, a.mutex) :
    ∀ b ∈ (scheduleStep cfg agents g).1, b.mutex := by
  rw [scheduleStep]
  exact activateList_mutex cfg _ agents _ h

theorem removeDeathsAux_subset (l : List Agent) (g : RNG) :
    ∀ b ∈ (removeDeathsAux l g).1, b ∈ l := by
  induction l generalizing g with
  | nil => intro b hb; exact absurd hb (by simp [removeDeathsAux])
  | cons a rest ih =>
      intro b hb
      rw [removeDeathsAux] at hb
      by_cases hf : a.fatal = true
      · rw [if_pos hf] at hb
        by_cases hd : bernoulliRvs (1 / 10) g.head = true
        · rw [if_pos hd] at hb
          exact List.mem_cons_of_mem a (ih g.tail b hb)
        · rw [if_neg hd] at hb
          rcases List.mem_cons.1 hb with rfl | hb
          · exact List.mem_cons_self _ _
          · exact List.mem_cons_of_mem a (ih g.tail b hb)
      · rw [if_neg hf] at hb
        rcases List.mem_cons.1 hb with rfl | hb
        · exact List.mem_cons_self _ _
        · exact List.mem_cons_of_mem a (ih g b hb)

theorem removeDeathsAux_length (l : List Agent) (g : RNG) :
    ((removeDeathsAux l g).1).length + (removeDeathsAux l g).2.1 = l.length := by
  induction l generalizing g with
  | nil => rfl
  | cons a rest ih =>
      rw [removeDeathsAux]
      by_cases hf : a.fatal = true
      · rw [if_pos hf]
        by_cases hd : bernoulliRvs (1 / 10) g.head = true
        · rw [if_pos hd]
          have := ih g.tail
          simp only [List.length_cons]
          omega
        · rw [if_neg hd]
          have := ih g.tail
          simp only [List.length_cons]
          omega
      · rw [if_neg hf]
        have := ih g
        simp only [List.length_cons]
        omega

theorem agent_init_fields (uid : ℕ) (cfg : Config) (g : RNG) :
    (Agent.init uid cfg g).1.immune = false ∧ (Agent.init uid cfg g).1.fatal = false ∧
      (Agent.init uid cfg g).1.unique_id = uid ∧
      (Agent.init uid cfg g).1.lockdown = false ∧
      (Agent.init uid cfg g).1.immunity_countdown = 0 := by
  rw [Agent.init]
  split <;> exact ⟨rfl, rfl, rfl, rfl, rfl⟩

theorem add_import_false (m : CovidModel) (g : RNG)
    (h : bernoulliRvs m.cfg.infected_import g.head = false) :
    m.add_import_infected g = (m, g.tail) := by
  rw [CovidModel.add_import_infected, if_neg (by simp [h])]

theorem add_import_true (m : CovidModel) (g : RNG)
    (h : bernoulliRvs m.cfg.infected_import g.head = true) :
    ∃ a gr, m.add_import_infected g =
        ({ m with agents := m.agents ++ [a], created := m.created + 1 }, gr) ∧
      a.infected = true ∧ a.immune = false ∧
      9999 ≤ a.unique_id ∧ a.unique_id < 999999 ∧
      ∃ u v, a.pos = ((randbelow m.cfg.width u : ℤ), (randbelow m.cfg.height v : ℤ)) := by
  rw [CovidModel.add_import_infected, if_pos h]
  refine ⟨_, _, rfl, rfl, ?_, ?_, ?_, ?_⟩
  · exact (agent_init_fields _ m.cfg _).1
  · have hf := agent_init_fields (9999 + randbelow (999999 - 9999) g.tail.head) m.cfg g.tail.tail
    simp only [hf.2.2.1]
    omega
  · have hf := agent_init_fields (9999 + randbelow (999999 - 9999) g.tail.head) m.cfg g.tail.tail
    simp only [hf.2.2.1]
    have := randbelow_lt (999999 - 9999) g.tail.head (by norm_num)
    omega
  · exact ⟨_, _, rfl⟩

theorem createAgents_mutex (cfg : Config) :
    ∀ (uid k : ℕ) (g : RNG), ∀ b ∈ (createAgents cfg uid k g).1, b.immune = false := by
  intro uid k
  induction k generalizing uid with
  | zero => intro g b hb; exact absurd hb (by simp [createAgents])
  | succ k ih =>
      intro g b hb
      rw [createAgents] at hb
      rcases List.mem_cons.1 hb with rfl | hb
      · exact (agent_init_fields uid cfg g).1
      · exact ih (uid + 1) _ b hb

theorem createAgents_length (cfg : Config) :
    ∀ (uid k : ℕ) (g : RNG), ((createAgents cfg uid k g).1).length = k := by
  intro uid k
  induction k generalizing uid with
  | zero => intro g; rfl
  | succ k ih =>
      intro g
      rw [createAgents]
      simp only [List.length_cons, ih (uid + 1)]

/-- The model invariant backing population conservation: every agent
satisfies health-flag mutual exclusion, and the live population plus the
deaths counter equals the number of agents ever created. -/
def ModelInv (m : CovidModel) : Prop :=
  (∀ a ∈ m.agents, a.mutex) ∧ m.agents.length + m.deaths = m.created

theorem init_ModelInv (cfg : Config) (g : RNG) :
    ModelInv (CovidModel.init cfg g).1 := by
  constructor
  · intro a ha
    right
    exact createAgents_mutex cfg 0 cfg.no_agents g a ha
  · show ((createAgents cfg 0 cfg.no_agents g).1).length + 0 = cfg.no_agents
    rw [createAgents_length, Nat.add_zero]

theorem preImport_ModelInv (m : CovidModel) (g : RNG) (h : ModelInv m) :
    ModelInv (m.preImport g).1 := by
  obtain ⟨hmut, hlen⟩ := h
  rw [CovidModel.preImport, CovidModel.remove_deaths]
  constructor
  · intro a ha
    have hsub := removeDeathsAux_subset _ _ a ha
    exact scheduleStep_mutex m.cfg m.agents g hmut a hsub
  · have hrd := removeDeathsAux_length
      ((scheduleStep m.collect.cfg m.collect.agents g).1)
      ((scheduleStep m.collect.cfg m.collect.agents g).2)
    have hss : ((scheduleStep m.collect.cfg m.collect.agents g).1).length =
        m.agents.length := scheduleStep_length _ _ _
    simp only [CovidModel.collect] at hrd hss ⊢
    omega

theorem add_import_ModelInv (m : CovidModel) (g : RNG) (h : ModelInv m) :
    ModelInv (m.add_import_infected g).1 := by
  by_cases hb : bernoulliRvs m.cfg.infected_import g.head = true
  · obtain ⟨a, gr, heq, _, himm, _⟩ := add_import_true m g hb
    rw [heq]
    obtain ⟨hmut, hlen⟩ := h
    constructor
    · intro b hb2
      rcases List.mem_append.1 hb2 with hb2 | hb2
      · exact hmut b hb2
      · right
        rw [List.mem_singleton.1 hb2]
        exact himm
    · simp only [List.length_append, List.length_singleton]
      omega
  · rw [add_import_false m g (by simpa using hb)]
    exact h

theorem step_ModelInv (m : CovidModel) (g : RNG) (h : ModelInv m) :
    ModelInv (m.step g).1 := by
  have hpre := preImport_ModelInv m g h
  rw [CovidModel.step]
  split
  · exact add_import_ModelInv _ _ hpre
  · exact hpre

theorem count_partition (l : List Agent) (h : ∀ a ∈ l, a.mutex) :
    (l.filter fun a => !(a.immune || a.infected)).length +
        (l.filter fun a => a.infected).length +
        (l.filter fun a => a.immune).length = l.length := by
  induction l with
  | nil => rfl
  | cons a t ih =>
      have hm := h a (List.mem_cons_self a t)
      have ht := ih fun b hb => h b (List.mem_cons_of_mem a hb)
      cases hi : a.infected <;> cases hmm : a.immune
      · simp [List.filter_cons, hi, hmm] at ht ⊢
        omega
      · simp [List.filter_cons, hi, hmm] at ht ⊢
        omega
      · simp [List.filter_cons, hi, hmm] at ht ⊢
        omega
      · rcases hm with hc | hc
        · rw [hi] at hc
          exact absurd hc (by simp)
        · rw [hmm] at hc
          exact absurd hc (by simp)

theorem stepN_ModelInv (n : ℕ) :
    ∀ (m : CovidModel) (g : RNG), ModelInv m → ModelInv (CovidModel.stepN n m g).1 := by
  induction n with
  | zero => intro m g h; exact h
  | succ n ih =>
      intro m g h
      rw [CovidModel.stepN]
      exact ih _ _ (step_ModelInv m g h)

theorem runModel_ModelInv (cfg : Config) (g : RNG) (n : ℕ) :
    ModelInv (runModel cfg g n).1 := by
  rw [runModel]
  exact stepN_ModelInv n _ _ (init_ModelInv cfg g)

/-- Claim C1: at every observation point between completed steps, the
susceptible, infected and immune counts plus the cumulative deaths counter
add up to the total number of agents ever created (the ghost counter
`created`, which starts at the initial population `no_agents` and grows by
one with every imported agent). -/
theorem C1_population_conservation (cfg : Config) (g : RNG) (n : ℕ) :
    (runModel cfg g n).1.susceptible + (runModel cfg g n).1.infected +
        (runModel cfg g n).1.immune + (runModel cfg g n).1.death =
      (runModel cfg g n).1.created ∧
    (CovidModel.init cfg g).1.created = cfg.no_agents := by
  refine ⟨?_, rfl⟩
  obtain ⟨hmut, hlen⟩ := runModel_ModelInv cfg g n
  have hcp := count_partition _ hmut
  rw [CovidModel.susceptible, CovidModel.infected, CovidModel.immune,
    CovidModel.death]
  omega

/-- Claim C2: for every agent of the model at every observation point
between completed steps, the `infected` and `immune` flags are never both
true. -/
theorem C2_mutual_exclusion (cfg : Config) (g : RNG) (n : ℕ) (a : Agent)
    (ha : a ∈ (runModel cfg g n).1.agents) :
    ¬(a.infected = true ∧ a.immune = true) := by
  obtain ⟨hmut, _⟩ := runModel_ModelInv cfg g n
  rcases hmut a ha with h | h <;> · rw [h]; simp

/-- Witness for C2 at a concrete one-agent run. -/
theorem C2_mutual_exclusion_witness : ¬(aW.infected = true ∧ aW.immune = true) :=
  C2_mutual_exclusion cfgW gZero 0 aW (by decide)

theorem bernoulliRvsE_ok (p : ℚ) (u : Unit01) (h1 : 0 ≤ p) (h2 : p ≤ 1) :
    bernoulliRvsE p u = Except.ok (bernoulliRvs p u) := by
  rw [bernoulliRvsE, if_pos ⟨h1, h2⟩]

theorem randbelowE_ok (n : ℕ) (u : Unit01) (h : 0 < n) :
    randbelowE n u = Except.ok (randbelow n u) := by
  rw [randbelowE, if_pos h]

theorem agent_initE_ok (uid : ℕ) (cfg : Config) (g : RNG)
    (hpm1 : 0 ≤ cfg.perc_masked) (hpm2 : cfg.perc_masked ≤ 1)
    (hii1 : 0 ≤ cfg.init_infected) (hii2 : cfg.init_infected ≤ 1)
    (hp : 0 < cfg.infection_period) :
    Agent.initE uid cfg g = Except.ok (Agent.init uid cfg g) := by
  rw [Agent.initE, bernoulliRvsE_ok _ _ hpm1 hpm2, bernoulliRvsE_ok _ _ hii1 hii2,
    randbelowE_ok _ _ hp]
  dsimp only
  rw [Agent.init]
  by_cases hinf : bernoulliRvs cfg.init_infected g.tail.head = true
  · rw [if_pos hinf, if_pos hinf]
  · rw [if_neg hinf, if_neg hinf]

theorem createAgentsE_ok (cfg : Config)
    (hpm1 : 0 ≤ cfg.perc_masked) (hpm2 : cfg.perc_masked ≤ 1)
    (hii1 : 0 ≤ cfg.init_infected) (hii2 : cfg.init_infected ≤ 1)
    (hp : 0 < cfg.infection_period) (hw : 0 < cfg.width) (hh : 0 < cfg.height) :
    ∀ (uid k : ℕ) (g : RNG),
      createAgentsE cfg uid k g = Except.ok (createAgents cfg uid k g) := by
  intro uid k
  induction k generalizing uid with
  | zero => intro g; rfl
  | succ k ih =>
      intro g
      rw [createAgentsE, agent_initE_ok uid cfg g hpm1 hpm2 hii1 hii2 hp]
      simp only [randbelowE_ok _ _ hw, randbelowE_ok _ _ hh, ih (uid + 1)]
      rw [createAgents]

theorem covid_initE_ok (cfg : Config) (g : RNG)
    (hpm1 : 0 ≤ cfg.perc_masked) (hpm2 : cfg.perc_masked ≤ 1)
    (hii1 : 0 ≤ cfg.init_infected) (hii2 : cfg.init_infected ≤ 1)
    (hp : 0 < cfg.infection_period) (hw : 0 < cfg.width) (hh : 0 < cfg.height) :
    CovidModel.initE cfg g = Except.ok (CovidModel.init cfg g) := by
  rw [CovidModel.initE,
    createAgentsE_ok cfg hpm1 hpm2 hii1 hii2 hp hw hh 0 cfg.no_agents g,
    CovidModel.init]

/-- Claim C4 fails on the code: the constructor performs no validation.
Here a configuration with `prob_fatal = 2` (outside `[0,1]`) still
constructs a model with one agent and usable counters — `prob_fatal` is
never sampled at construction, so even the fallible construction
succeeds — and no `ConfigurationError` exists anywhere in the source. -/
theorem C4_counterexample :
    ¬(cfgBad.prob_fatal ≤ 1) ∧
      CovidModel.initE cfgBad gZero = Except.ok (CovidModel.init cfgBad gZero) ∧
      (CovidModel.init cfgBad gZero).1.agents.length = 1 ∧
      (CovidModel.init cfgBad gZero).1.susceptible = 1 ∧
      (CovidModel.init cfgBad gZero).1.deaths = 0 := by
  refine ⟨by norm_num [cfgBad], rfl, by decide, by decide, by decide⟩

/-- Claim C4 (amended): the constructor validates nothing and no
`ConfigurationError` exists in the source; the only construction failures
are `ValueError` raised inside the sampling libraries when an out-of-range
draw is actually attempted.  Whenever the construction-time draws are in
range — `perc_masked` and `init_infected` in `[0,1]`, positive grid
dimensions and a positive infection period — construction succeeds and
yields a model with exactly `no_agents` agents, however invalid the
remaining parameters; in particular `cfgBad` (invalid `prob_fatal`, never
sampled at construction) constructs, while `cfgRaise` (invalid
`init_infected`, sampled for its one initial agent) fails inside the
sampler rather than with a `ConfigurationError`. -/
theorem C4_no_validation (cfg : Config) (g : RNG)
    (hpm1 : 0 ≤ cfg.perc_masked) (hpm2 : cfg.perc_masked ≤ 1)
    (hii1 : 0 ≤ cfg.init_infected) (hii2 : cfg.init_infected ≤ 1)
    (hp : 0 < cfg.infection_period) (hw : 0 < cfg.width) (hh : 0 < cfg.height) :
    (CovidModel.initE cfg g = Except.ok (CovidModel.init cfg g) ∧
      (CovidModel.init cfg g).1.agents.length = cfg.no_agents ∧
      (CovidModel.init cfg g).1.created = cfg.no_agents ∧
      (CovidModel.init cfg g).1.deaths = 0) ∧
    CovidModel.initE cfgBad gZero = Except.ok (CovidModel.init cfgBad gZero) ∧
    CovidModel.initE cfgRaise gZero = Except.error "ValueError" :=
  ⟨⟨covid_initE_ok cfg g hpm1 hpm2 hii1 hii2 hp hw hh,
    createAgents_length cfg 0 cfg.no_agents g, rfl, rfl⟩, rfl, rfl⟩

/-- Witness for the amended C4 at the concrete valid configuration
`cfgW`. -/
theorem C4_no_validation_witness :
    (CovidModel.initE cfgW gZero = Except.ok (CovidModel.init cfgW gZero) ∧
      (CovidModel.init cfgW gZero).1.agents.length = cfgW.no_agents ∧
      (CovidModel.init cfgW gZero).1.created = cfgW.no_agents ∧
      (CovidModel.init cfgW gZero).1.deaths = 0) ∧
    CovidModel.initE cfgBad gZero = Except.ok (CovidModel.init cfgBad gZero) ∧
    CovidModel.initE cfgRaise gZero = Except.error "ValueError" :=
  C4_no_validation cfgW gZero (by decide) (by decide) (by decide) (by decide)
    (by decide) (by decide) (by decide)

/-- Claim C8: two runs from equal configurations and equal seeded
generators produce equal sequences of collected aggregate counts, for any
number of steps.  All randomness is drawn from the one generator, so the
run is a function of (configuration, generator). -/
theorem C8_determinism (cfg1 cfg2 : Config) (g1 g2 : RNG) (n : ℕ)
    (hc : cfg1 = cfg2) (hg : g1 = g2) :
    (runModel cfg1 g1 n).1.collected = (runModel cfg2 g2 n).1.collected := by
  subst hc
  subst hg
  rfl

/-- Witness for C8 at a concrete configuration and seed. -/
theorem C8_determinism_witness :
    (runModel cfgW gZero 2).1.collected = (runModel cfgW gZero 2).1.collected :=
  C8_determinism cfgW cfgW gZero gZero 2 rfl rfl

theorem createAgents_ids (cfg : Config) :
    ∀ (uid k : ℕ) (g : RNG),
      ((createAgents cfg uid k g).1.map fun a => a.unique_id) = List.range' uid k := by
  intro uid k
  induction k generalizing uid with
  | zero => intro g; rfl
  | succ k ih =>
      intro g
      rw [createAgents, List.range']
      simp only [List.map_cons]
      rw [ih (uid + 1)]
      have hid : (Agent.init uid cfg g).1.unique_id = uid :=
        (agent_init_fields uid cfg g).2.2.1
      simp [hid]

/-- Claim C5 fails on the code: imported ids are fresh draws from
`randrange(9999, 999999)` and can repeat.  In this concrete run with an
all-zero generator, two imports in two steps both draw id 9999: two
distinct agents (`created = 2`) share one id. -/
theorem C5_counterexample :
    ((runModel cfgC5 gZero 2).1.agents.map fun a => a.unique_id) = [9999, 9999] ∧
      ¬((runModel cfgC5 gZero 2).1.agents.map fun a => a.unique_id).Nodup ∧
      (runModel cfgC5 gZero 2).1.created = 2 := by
  refine ⟨by decide, by decide, by decide⟩

/-- Claim C5 (amended): the ids assigned at construction are exactly
`0, …, no_agents - 1`, hence pairwise distinct; every agent present after
`add_import_infected` either was already present or is the new import,
whose id lies in `[9999, 999999)` — so an imported id differs from every
construction id precisely when `no_agents ≤ 9999`; however imported ids
are independent random draws and are not guaranteed distinct from each
other (see the counterexample). -/
theorem C5_id_ranges (cfg : Config) (g : RNG) (m : CovidModel) (g2 : RNG) :
    ((CovidModel.init cfg g).1.agents.map fun a => a.unique_id) =
        List.range cfg.no_agents ∧
      (((CovidModel.init cfg g).1.agents.map fun a => a.unique_id)).Nodup ∧
      (∀ a ∈ (m.add_import_infected g2).1.agents,
        a ∈ m.agents ∨ (9999 ≤ a.unique_id ∧ a.unique_id < 999999)) := by
  have hids : ((CovidModel.init cfg g).1.agents.map fun a => a.unique_id) =
      List.range cfg.no_agents := by
    rw [List.range_eq_range']
    exact createAgents_ids cfg 0 cfg.no_agents g
  refine ⟨hids, by rw [hids]; exact List.nodup_range _, ?_⟩
  intro a ha
  by_cases hb : bernoulliRvs m.cfg.infected_import g2.head = true
  · obtain ⟨b, gr, heq, _, _, hlo, hhi, _⟩ := add_import_true m g2 hb
    rw [heq] at ha
    rcases List.mem_append.1 ha with ha | ha
    · exact Or.inl ha
    · right
      rw [List.mem_singleton.1 ha]
      exact ⟨hlo, hhi⟩
  · rw [add_import_false m g2 (by simpa using hb)] at ha
    exact Or.inl ha

/-- Witness for C5 (amended) on a concrete one-agent model with
importation disabled. -/
theorem C5_id_ranges_witness :
    aW ∈ (CovidModel.init cfgW gZero).1.agents ∨
      (9999 ≤ aW.unique_id ∧ aW.unique_id < 999999) :=
  (C5_id_ranges cfgW gZero (CovidModel.init cfgW gZero).1 gZero).2.2 aW (by decide)

theorem update_infected_transmits (a : Agent) (cfg : Config) (l : List Agent)
    (g : RNG) (hi : a.infected = false) (hm : a.immune = false)
    (hany : ((l.filter fun b => b.pos = a.pos).any fun b => b.infected && !b.lockdown) = true)
    (htr : bernoulliRvs (if a.masked then cfg.prob_trans_masked else cfg.prob_trans_unmasked)
        g.head = true) :
    (a.update_infected cfg l g).1 =
      { a with infected := true, recovery_countdown := cfg.infection_period,
               fatal := bernoulliRvs cfg.prob_fatal g.tail.head } ∧
      (a.update_infected cfg l g).2 = g.tail.tail := by
  rw [Agent.update_infected, if_neg (by simp [hi, hm])]
  simp only [hany, if_true]
  cases hma : a.masked
  · rw [hma] at htr
    simp at htr
    simp [htr]
  · rw [hma] at htr
    simp at htr
    simp [htr]

/-- Claim C10: whenever a susceptible agent is infected during
`update_infected`, its `fatal` flag is overwritten by a fresh
Bernoulli(`prob_fatal`) draw, whatever its previous value (the statement
places no constraint on `a.fatal`); concretely, the previously-fatal
susceptible `aFatal`, reinfected with certain transmission and
`prob_fatal = 0`, ends with `fatal = false` — so `fatal` is not monotone
across reinfections. -/
theorem C10_fatal_overwrite (a : Agent) (cfg : Config) (l : List Agent)
    (g : RNG) (hi : a.infected = false) (hm : a.immune = false)
    (hany : ((l.filter fun b => b.pos = a.pos).any fun b => b.infected && !b.lockdown) = true)
    (htr : bernoulliRvs (if a.masked then cfg.prob_trans_masked else cfg.prob_trans_unmasked)
        g.head = true) :
    ((a.update_infected cfg l g).1.fatal = bernoulliRvs cfg.prob_fatal g.tail.head ∧
      (a.update_infected cfg l g).1.infected = true ∧
      (a.update_infected cfg l g).1.recovery_countdown = cfg.infection_period) ∧
    ((aFatal.update_infected cfgT [aFatal, aInf] gZero).1.fatal = false ∧
      (aFatal.update_infected cfgT [aFatal, aInf] gZero).1.infected = true ∧
      aFatal.fatal = true) := by
  obtain ⟨h1, _⟩ := update_infected_transmits a cfg l g hi hm hany htr
  exact ⟨⟨by rw [h1], by rw [h1], by rw [h1]⟩, by decide, by decide, by decide⟩

/-- Witness for C10 at the concrete reinfection run. -/
theorem C10_fatal_overwrite_witness :
    ((aFatal.update_infected cfgT [aFatal, aInf] gZero).1.fatal =
        bernoulliRvs cfgT.prob_fatal gZero.tail.head ∧
      (aFatal.update_infected cfgT [aFatal, aInf] gZero).1.infected = true ∧
      (aFatal.update_infected cfgT [aFatal, aInf] gZero).1.recovery_countdown =
        cfgT.infection_period) ∧
    ((aFatal.update_infected cfgT [aFatal, aInf] gZero).1.fatal = false ∧
      (aFatal.update_infected cfgT [aFatal, aInf] gZero).1.infected = true ∧
      aFatal.fatal = true) :=
  C10_fatal_overwrite aFatal cfgT [aFatal, aInf] gZero (by decide) (by decide)
    (by decide) (by decide)

theorem agent_init_not_infected (uid : ℕ) (cfg : Config) (g : RNG)
    (h : bernoulliRvs cfg.init_infected g.tail.head = false) :
    (Agent.init uid cfg g).1.recovery_countdown = 0 ∧
      (Agent.init uid cfg g).1.infected = false := by
  rw [Agent.init]
  simp [h]

theorem add_import_stuck (m : CovidModel) (g : RNG)
    (hgate : bernoulliRvs m.cfg.infected_import g.head = true)
    (hdraw : bernoulliRvs m.cfg.init_infected g.tail.tail.tail.head = false) :
    ∃ b gr, m.add_import_infected g =
        ({ m with agents := m.agents ++ [b], created := m.created + 1 }, gr) ∧
      b.stuckImport := by
  rw [CovidModel.add_import_infected, if_pos hgate]
  refine ⟨_, _, rfl, ?_⟩
  have h1 := agent_init_not_infected (9999 + randbelow (999999 - 9999) g.tail.head)
    m.cfg g.tail.tail hdraw
  have h2 := agent_init_fields (9999 + randbelow (999999 - 9999) g.tail.head)
    m.cfg g.tail.tail
  exact ⟨rfl, h2.1, h1.1, h2.2.1, h2.2.2.2.2⟩

theorem update_recovered_stuck (a : Agent) (cfg : Config)
    (h : a.recovery_countdown = 0) : a.update_recovered cfg = a := by
  rw [Agent.update_recovered]
  simp [h]

theorem update_susceptible_stuck (a : Agent)
    (h : a.immunity_countdown = 0) : a.update_susceptible = a := by
  rw [Agent.update_susceptible]
  simp [h]

theorem activateAt_stuck (cfg : Config) (agents : List Agent) (i j : ℕ)
    (g : RNG) (a : Agent) (hj : agents[j]? = some a) (h : a.stuckImport) :
    ∃ a2, ((activateAt cfg agents i g).1)[j]? = some a2 ∧ a2.stuckImport ∧
      a2.unique_id = a.unique_id := by
  rw [activateAt]
  cases hgi : agents[i]? with
  | none => exact ⟨a, hj, h, rfl⟩
  | some b =>
      by_cases hij : i = j
      · subst hij
        rw [hgi] at hj
        obtain rfl : a = b := (Option.some_inj.1 hj).symm
        have hilen : i < agents.length := by
          by_contra hlen
          rw [List.getElem?_eq_none (by omega)] at hgi
          exact Option.noConfusion hgi
        obtain ⟨p, hp⟩ := move_spec a cfg.width cfg.height g
        simp only
        rw [hp]
        have hblock : (({ a with pos := p } : Agent).infected ||
            ({ a with pos := p } : Agent).immune) = true := by
          show (a.infected || a.immune) = true
          rw [h.1]
          rfl
        rw [update_infected_blocked _ cfg _ _ hblock]
        simp only
        rw [update_recovered_stuck _ cfg (by exact h.2.2.1),
          update_susceptible_stuck _ (by exact h.2.2.2.2)]
        obtain ⟨bl, hbl⟩ := update_lockdown_spec ({ a with pos := p } : Agent) cfg
          ((a.move cfg.width cfg.height g).2)
        rw [hbl]
        refine ⟨_, List.getElem?_set_self ?_, ?_, ?_⟩
        · rw [List.length_set]
          exact hilen
        · exact h
        · rfl
      · refine ⟨a, ?_, h, rfl⟩
        simp only
        rw [List.getElem?_set_ne hij, List.getElem?_set_ne hij]
        exact hj

theorem activateList_stuck (cfg : Config) (ord : List ℕ) :
    ∀ (agents : List Agent) (g : RNG) (j : ℕ) (a : Agent),
      agents[j]? = some a → a.stuckImport →
      ∃ a2, ((activateList cfg ord agents g).1)[j]? = some a2 ∧ a2.stuckImport ∧
        a2.unique_id = a.unique_id := by
  induction ord with
  | nil => intro agents g j a hj h; exact ⟨a, hj, h, rfl⟩
  | cons i rest ih =>
      intro agents g j a hj h
      obtain ⟨a2, hj2, h2, hid2⟩ := activateAt_stuck cfg agents i j g a hj h
      obtain ⟨a3, hj3, h3, hid3⟩ := ih _ _ j a2 hj2 h2
      exact ⟨a3, hj3, h3, by rw [hid3, hid2]⟩

theorem removeDeathsAux_keeps (l : List Agent) (g : RNG) (a : Agent)
    (ha : a ∈ l) (hf : a.fatal = false) : a ∈ (removeDeathsAux l g).1 := by
  induction l generalizing g with
  | nil => exact absurd ha (List.not_mem_nil a)
  | cons b rest ih =>
      rw [removeDeathsAux]
      rcases List.mem_cons.1 ha with rfl | ha
      · rw [if_neg (by rw [hf]; exact Bool.false_ne_true)]
        exact List.mem_cons_self _ _
      · by_cases hbf : b.fatal = true
        · rw [if_pos hbf]
          by_cases hd : bernoulliRvs (1 / 10) g.head = true
          · rw [if_pos hd]
            exact ih g.tail ha
          · rw [if_neg hd]
            exact List.mem_cons_of_mem b (ih g.tail ha)
        · rw [if_neg hbf]
          exact List.mem_cons_of_mem b (ih g ha)

theorem add_import_mem (m : CovidModel) (g : RNG) (a : Agent)
    (ha : a ∈ m.agents) : a ∈ (m.add_import_infected g).1.agents := by
  by_cases hb : bernoulliRvs m.cfg.infected_import g.head = true
  · obtain ⟨b, gr, heq, _⟩ := add_import_true m g hb
    rw [heq]
    exact List.mem_append_left _ ha
  · rw [add_import_false m g (by simpa using hb)]
    exact ha

theorem step_stuck (m : CovidModel) (g : RNG) (a : Agent)
    (ha : a ∈ m.agents) (h : a.stuckImport) :
    ∃ a2, a2 ∈ (m.step g).1.agents ∧ a2.stuckImport ∧
      a2.unique_id = a.unique_id := by
  obtain ⟨j, hj⟩ := List.getElem?_of_mem ha
  have hj2 : m.collect.agents[j]? = some a := hj
  obtain ⟨a2, hja, h2, hid2⟩ := activateList_stuck m.cfg _ m.collect.agents _ j a hj2 h
  have hmem2 : a2 ∈ (scheduleStep m.collect.cfg m.collect.agents g).1 := by
    rw [scheduleStep]
    exact List.getElem?_mem hja
  have hmem3 : a2 ∈ (m.preImport g).1.agents := by
    rw [CovidModel.preImport, CovidModel.remove_deaths]
    exact removeDeathsAux_keeps _ _ a2 hmem2 h2.2.2.2.1
  rw [CovidModel.step]
  split
  · exact ⟨a2, add_import_mem _ _ a2 hmem3, h2, hid2⟩
  · exact ⟨a2, hmem3, h2, hid2⟩

theorem stepN_stuck (n : ℕ) :
    ∀ (m : CovidModel) (g : RNG) (a : Agent), a ∈ m.agents → a.stuckImport →
      ∃ a2, a2 ∈ (CovidModel.stepN n m g).1.agents ∧ a2.stuckImport ∧
        a2.unique_id = a.unique_id := by
  induction n with
  | zero => intro m g a ha h; exact ⟨a, ha, h, rfl⟩
  | succ n ih =>
      intro m g a ha h
      obtain ⟨a2, ha2, h2, hid2⟩ := step_stuck m g a ha h
      obtain ⟨a3, ha3, h3, hid3⟩ := ih _ _ a2 ha2 h2
      exact ⟨a3, ha3, h3, by rw [hid3, hid2]⟩

/-- Claim C9: an import whose own constructor infection draw came out
false yields an agent with `infected = true`, `recovery_countdown = 0` and
`fatal = false`; any such agent survives every later step unchanged in
those fields — it never transitions to immune (`update_infected` returns
at once for infected agents, so its countdown is never started) and is
never removed by the death sweep (its `fatal` stays false). -/
theorem C9_stuck_import (m : CovidModel) (g : RNG) (n : ℕ) (a : Agent) :
    (bernoulliRvs m.cfg.infected_import g.head = true →
      bernoulliRvs m.cfg.init_infected g.tail.tail.tail.head = false →
      ∃ b gr, m.add_import_infected g =
          ({ m with agents := m.agents ++ [b], created := m.created + 1 }, gr) ∧
        b.stuckImport) ∧
    (a ∈ m.agents → a.stuckImport →
      ∃ a2, a2 ∈ (CovidModel.stepN n m g).1.agents ∧ a2.stuckImport ∧
        a2.unique_id = a.unique_id) := by
  constructor
  · intro hgate hdraw
    exact add_import_stuck m g hgate hdraw
  · intro ha h
    exact stepN_stuck n m g a ha h

/-- Witness for C9 on a concrete model: `mC9` holds the stuck agent
`aStuck`, imports are certain, and the all-zero generator turns the
constructor's infection draw false. -/
theorem C9_stuck_import_witness :
    (∃ b gr, mC9.add_import_infected gZero =
        ({ mC9 with agents := mC9.agents ++ [b], created := mC9.created + 1 }, gr) ∧
      b.stuckImport) ∧
    (∃ a2, a2 ∈ (CovidModel.stepN 2 mC9 gZero).1.agents ∧ a2.stuckImport ∧
      a2.unique_id = aStuck.unique_id) :=
  ⟨(C9_stuck_import mC9 gZero 2 aStuck).1 (by decide) (by decide),
    (C9_stuck_import mC9 gZero 2 aStuck).2 (by decide) ⟨rfl, rfl, rfl, rfl, rfl⟩⟩

/-- Claim C6: in `step`, after the activation and death-sweep prefix
(`preImport`, whose configuration is unchanged), a new agent is created
and appended if and only if two Bernoulli draws with the configured import
probability both succeed — the outer gate in `step` and the inner gate
repeated in `add_import_infected`.  When inserted, the agent has
`infected = true` and sits at the grid cell given by the generator's two
uniform cell draws, inside the grid; being appended after the activation
prefix, it is not activated during this step. -/
theorem C6_import_double_gate (m : CovidModel) (g : RNG)
    (hw : 0 < m.cfg.width) (hh : 0 < m.cfg.height) :
    (m.preImport g).1.cfg = m.cfg ∧
    (bernoulliRvs m.cfg.infected_import ((m.preImport g).2.head) = false →
      (m.step g).1 = (m.preImport g).1) ∧
    (bernoulliRvs m.cfg.infected_import ((m.preImport g).2.head) = true →
      bernoulliRvs m.cfg.infected_import ((m.preImport g).2.tail.head) = false →
      (m.step g).1 = (m.preImport g).1) ∧
    (bernoulliRvs m.cfg.infected_import ((m.preImport g).2.head) = true →
      bernoulliRvs m.cfg.infected_import ((m.preImport g).2.tail.head) = true →
      ∃ a gr, m.step g =
          ({ (m.preImport g).1 with
              agents := (m.preImport g).1.agents ++ [a],
              created := (m.preImport g).1.created + 1 }, gr) ∧
        a.infected = true ∧ a.inGrid m.cfg.width m.cfg.height ∧
        ∃ u v, a.pos =
          ((randbelow m.cfg.width u : ℤ), (randbelow m.cfg.height v : ℤ))) := by
  refine ⟨rfl, ?_, ?_, ?_⟩
  · intro hb
    have hb2 : bernoulliRvs ((m.preImport g).1.cfg.infected_import)
        ((m.preImport g).2.head) = false := hb
    rw [CovidModel.step, if_neg (by simp [hb2])]
  · intro hb1 hb2
    have hb1a : bernoulliRvs ((m.preImport g).1.cfg.infected_import)
        ((m.preImport g).2.head) = true := hb1
    have hb2a : bernoulliRvs ((m.preImport g).1.cfg.infected_import)
        ((m.preImport g).2.tail.head) = false := hb2
    rw [CovidModel.step, if_pos hb1a, add_import_false _ _ hb2a]
  · intro hb1 hb2
    have hb1a : bernoulliRvs ((m.preImport g).1.cfg.infected_import)
        ((m.preImport g).2.head) = true := hb1
    have hb2a : bernoulliRvs ((m.preImport g).1.cfg.infected_import)
        ((m.preImport g).2.tail.head) = true := hb2
    obtain ⟨a, gr, heq, hinf, _, _, _, u, v, hpos⟩ :=
      add_import_true (m.preImport g).1 (m.preImport g).2.tail hb2a
    rw [CovidModel.step, if_pos hb1a, heq]
    refine ⟨a, gr, rfl, hinf, ?_, ⟨u, v, hpos⟩⟩
    have hpos2 : a.pos =
        ((randbelow m.cfg.width u : ℤ), (randbelow m.cfg.height v : ℤ)) := hpos
    rw [Agent.inGrid, hpos2]
    refine ⟨Int.ofNat_nonneg _, ?_, Int.ofNat_nonneg _, ?_⟩
    · show ((randbelow m.cfg.width u : ℤ)) < (m.cfg.width : ℤ)
      exact_mod_cast randbelow_lt m.cfg.width u hw
    · show ((randbelow m.cfg.height v : ℤ)) < (m.cfg.height : ℤ)
      exact_mod_cast randbelow_lt m.cfg.height v hh

/-- Witness for C6 on a concrete model whose import probability is zero:
the first gate fails and the step result is exactly the pre-import state. -/
theorem C6_import_double_gate_witness :
    ((CovidModel.init cfgW gZero).1.step gZero).1 =
      ((CovidModel.init cfgW gZero).1.preImport gZero).1 :=
  (C6_import_double_gate (CovidModel.init cfgW gZero).1 gZero (by decide)
    (by decide)).2.1 (by decide)

theorem update_infected_pos (a : Agent) (cfg : Config) (l : List Agent)
    (g : RNG) : (a.update_infected cfg l g).1.pos = a.pos := by
  by_cases hb : (a.infected || a.immune) = true
  · rw [update_infected_blocked a cfg l g hb]
  · simp only [Bool.or_eq_true, not_or, Bool.not_eq_true] at hb
    rcases update_infected_spec a cfg l g hb.1 hb.2 with heq | ⟨d, heq⟩ <;>
      rw [heq]

theorem update_recovered_pos (a : Agent) (cfg : Config) :
    (a.update_recovered cfg).pos = a.pos := by
  rw [Agent.update_recovered]
  repeat' split
  all_goals rfl

theorem update_susceptible_pos (a : Agent) :
    a.update_susceptible.pos = a.pos := by
  rw [Agent.update_susceptible]
  repeat' split
  all_goals rfl

theorem move_inGrid (a : Agent) (w h : ℕ) (g : RNG) (hw : 0 < w) (hh : 0 < h)
    (ha : a.inGrid w h) : ((a.move w h g).1).inGrid w h := by
  have hw1 : (1 : ℤ) ≤ (w : ℤ) := by exact_mod_cast hw
  have hh1 : (1 : ℤ) ≤ (h : ℤ) := by exact_mod_cast hh
  rw [Agent.move]
  split
  · exact ha
  · rw [Agent.inGrid]
    constructor
    · simp only
      omega
    constructor
    · simp only
      omega
    constructor
    · simp only
      omega
    · simp only
      omega

theorem pipeline_pos (a : Agent) (cfg : Config) (l : List Agent) (g g2 : RNG) :
    ((((a.update_infected cfg l g).1.update_recovered cfg).update_susceptible.update_lockdown
        cfg g2).1).pos = a.pos := by
  obtain ⟨b, hb⟩ := update_lockdown_spec
    (((a.update_infected cfg l g).1.update_recovered cfg).update_susceptible) cfg g2
  rw [hb]
  show ((((a.update_infected cfg l g).1.update_recovered cfg).update_susceptible).pos) = a.pos
  rw [update_susceptible_pos, update_recovered_pos, update_infected_pos]

theorem activateAt_inGrid (cfg : Config) (agents : List Agent) (i : ℕ) (g : RNG)
    (hw : 0 < cfg.width) (hh : 0 < cfg.height)
    (h : ∀ a ∈ agents, a.inGrid cfg.width cfg.height) :
    ∀ b ∈ (activateAt cfg agents i g).1, b.inGrid cfg.width cfg.height := by
  rw [activateAt]
  split
  · exact h
  · next a ha =>
    intro b hb
    have hma : a.inGrid cfg.width cfg.height := h a (List.getElem?_mem ha)
    have hmv : ((a.move cfg.width cfg.height g).1).inGrid cfg.width cfg.height :=
      move_inGrid a cfg.width cfg.height g hw hh hma
    have hmid : ∀ c ∈ agents.set i (a.move cfg.width cfg.height g).1,
        c.inGrid cfg.width cfg.height := by
      intro c hc
      rcases List.mem_or_eq_of_mem_set hc with hc | rfl
      · exact h c hc
      · exact hmv
    rcases List.mem_or_eq_of_mem_set hb with hb | rfl
    · exact hmid b hb
    · rw [Agent.inGrid, pipeline_pos]
      exact hmv

theorem activateList_inGrid (cfg : Config) (ord : List ℕ)
    (hw : 0 < cfg.width) (hh : 0 < cfg.height) :
    ∀ (agents : List Agent) (g : RNG),
      (∀ a ∈ agents, a.inGrid cfg.width cfg.height) →
      ∀ b ∈ (activateList cfg ord agents g).1, b.inGrid cfg.width cfg.height := by
  induction ord with
  | nil => intro agents g h; exact h
  | cons i rest ih =>
      intro agents g h
      exact ih _ _ (activateAt_inGrid cfg agents i g hw hh h)

theorem createAgents_inGrid (cfg : Config) (hw : 0 < cfg.width)
    (hh : 0 < cfg.height) :
    ∀ (uid k : ℕ) (g : RNG),
      ∀ b ∈ (createAgents cfg uid k g).1, b.inGrid cfg.width cfg.height := by
  intro uid k
  induction k generalizing uid with
  | zero => intro g b hb; exact absurd hb (by simp [createAgents])
  | succ k ih =>
      intro g b hb
      rw [createAgents] at hb
      rcases List.mem_cons.1 hb with rfl | hb
      · refine ⟨Int.ofNat_nonneg _, ?_, Int.ofNat_nonneg _, ?_⟩
        · show ((randbelow cfg.width (Agent.init uid cfg g).2.head : ℕ) : ℤ) <
            (cfg.width : ℤ)
          exact_mod_cast randbelow_lt cfg.width _ hw
        · show ((randbelow cfg.height (Agent.init uid cfg g).2.tail.head : ℕ) : ℤ) <
            (cfg.height : ℤ)
          exact_mod_cast randbelow_lt cfg.height _ hh
      · exact ih (uid + 1) _ b hb

/-- All agents of a model sit inside its grid. -/
def GridInv (m : CovidModel) : Prop :=
  ∀ a ∈ m.agents, a.inGrid m.cfg.width m.cfg.height

theorem init_GridInv (cfg : Config) (g : RNG) (hw : 0 < cfg.width)
    (hh : 0 < cfg.height) : GridInv (CovidModel.init cfg g).1 :=
  fun a ha => createAgents_inGrid cfg hw hh 0 cfg.no_agents g a ha

theorem add_import_cfg (m : CovidModel) (g : RNG) :
    (m.add_import_infected g).1.cfg = m.cfg := by
  rw [CovidModel.add_import_infected]
  split <;> rfl

theorem step_cfg (m : CovidModel) (g : RNG) : (m.step g).1.cfg = m.cfg := by
  rw [CovidModel.step]
  split
  · rw [add_import_cfg]
    rfl
  · rfl

theorem add_import_GridInv (m : CovidModel) (g : RNG) (hw : 0 < m.cfg.width)
    (hh : 0 < m.cfg.height) (h : GridInv m) :
    GridInv (m.add_import_infected g).1 := by
  by_cases hb : bernoulliRvs m.cfg.infected_import g.head = true
  · obtain ⟨b, gr, heq, _, _, _, _, u, v, hpos⟩ := add_import_true m g hb
    rw [CovidModel.add_import_infected] at heq ⊢
    rw [heq]
    intro a ha
    rcases List.mem_append.1 ha with ha | ha
    · exact h a ha
    · rw [List.mem_singleton.1 ha]
      have hpos2 : b.pos =
          ((randbelow m.cfg.width u : ℤ), (randbelow m.cfg.height v : ℤ)) := hpos
      rw [Agent.inGrid, hpos2]
      refine ⟨Int.ofNat_nonneg _, ?_, Int.ofNat_nonneg _, ?_⟩
      · show ((randbelow m.cfg.width u : ℕ) : ℤ) < (m.cfg.width : ℤ)
        exact_mod_cast randbelow_lt m.cfg.width u hw
      · show ((randbelow m.cfg.height v : ℕ) : ℤ) < (m.cfg.height : ℤ)
        exact_mod_cast randbelow_lt m.cfg.height v hh
  · rw [add_import_false m g (by simpa using hb)]
    exact h

theorem step_GridInv (m : CovidModel) (g : RNG) (hw : 0 < m.cfg.width)
    (hh : 0 < m.cfg.height) (h : GridInv m) : GridInv (m.step g).1 := by
  have hpre : GridInv (m.preImport g).1 := by
    intro a ha
    rw [CovidModel.preImport, CovidModel.remove_deaths] at ha
    have hsub := removeDeathsAux_subset _ _ a ha
    rw [scheduleStep] at hsub
    exact activateList_inGrid m.cfg _ hw hh m.agents _ h a hsub
  rw [CovidModel.step]
  split
  · exact add_import_GridInv _ _ hw hh hpre
  · exact hpre

theorem stepN_GridInv (n : ℕ) :
    ∀ (m : CovidModel) (g : RNG), 0 < m.cfg.width → 0 < m.cfg.height →
      GridInv m → GridInv (CovidModel.stepN n m g).1 := by
  induction n with
  | zero => intro m g _ _ h; exact h
  | succ n ih =>
      intro m g hw hh h
      rw [CovidModel.stepN]
      exact ih _ _ (by rw [step_cfg]; exact hw) (by rw [step_cfg]; exact hh)
        (step_GridInv m g hw hh h)

theorem stepN_cfg (n : ℕ) :
    ∀ (m : CovidModel) (g : RNG), (CovidModel.stepN n m g).1.cfg = m.cfg := by
  induction n with
  | zero => intro m g; rfl
  | succ n ih =>
      intro m g
      rw [CovidModel.stepN, ih, step_cfg]

/-- Claim C7: with positive grid dimensions, every agent of every run sits
inside `[0, width-1] × [0, height-1]` at every observation point; moreover
a move from the corner `(0,0)` never yields a negative coordinate and a
move from `(width-1, height-1)` never exceeds the grid bounds (whether or
not the mover is in lockdown). -/
theorem C7_position_bounds (cfg : Config) (g : RNG) (n : ℕ)
    (hw : 0 < cfg.width) (hh : 0 < cfg.height) :
    (∀ a ∈ (runModel cfg g n).1.agents, a.inGrid cfg.width cfg.height) ∧
    (∀ (a : Agent) (g2 : RNG), a.pos = (0, 0) →
      0 ≤ ((a.move cfg.width cfg.height g2).1).pos.1 ∧
      0 ≤ ((a.move cfg.width cfg.height g2).1).pos.2) ∧
    (∀ (a : Agent) (g2 : RNG),
      a.pos = ((cfg.width : ℤ) - 1, (cfg.height : ℤ) - 1) →
      ((a.move cfg.width cfg.height g2).1).pos.1 ≤ (cfg.width : ℤ) - 1 ∧
      ((a.move cfg.width cfg.height g2).1).pos.2 ≤ (cfg.height : ℤ) - 1) := by
  have hw1 : (1 : ℤ) ≤ (cfg.width : ℤ) := by exact_mod_cast hw
  have hh1 : (1 : ℤ) ≤ (cfg.height : ℤ) := by exact_mod_cast hh
  refine ⟨?_, ?_, ?_⟩
  · intro a ha
    have hinv := stepN_GridInv n (CovidModel.init cfg g).1 (CovidModel.init cfg g).2
      hw hh (init_GridInv cfg g hw hh)
    have hc : (CovidModel.stepN n (CovidModel.init cfg g).1
        (CovidModel.init cfg g).2).1.cfg = cfg := stepN_cfg n _ _
    have hmem : a ∈ (CovidModel.stepN n (CovidModel.init cfg g).1
        (CovidModel.init cfg g).2).1.agents := ha
    have hres := hinv a hmem
    rw [hc] at hres
    exact hres
  · intro a g2 hpos
    rw [Agent.move]
    split
    · rw [hpos]
      exact ⟨le_refl 0, le_refl 0⟩
    · simp only [hpos]
      constructor
      · omega
      · omega
  · intro a g2 hpos
    rw [Agent.move]
    split
    · rw [hpos]
      exact ⟨le_refl _, le_refl _⟩
    · simp only [hpos]
      constructor
      · omega
      · omega

/-- Witness for C7 on the concrete unit-grid configuration. -/
theorem C7_position_bounds_witness :
    (∀ a ∈ (runModel cfgW gZero 1).1.agents, a.inGrid cfgW.width cfgW.height) ∧
    (∀ (a : Agent) (g2 : RNG), a.pos = (0, 0) →
      0 ≤ ((a.move cfgW.width cfgW.height g2).1).pos.1 ∧
      0 ≤ ((a.move cfgW.width cfgW.height g2).1).pos.2) ∧
    (∀ (a : Agent) (g2 : RNG),
      a.pos = ((cfgW.width : ℤ) - 1, (cfgW.height : ℤ) - 1) →
      ((a.move cfgW.width cfgW.height g2).1).pos.1 ≤ (cfgW.width : ℤ) - 1 ∧
      ((a.move cfgW.width cfgW.height g2).1).pos.2 ≤ (cfgW.height : ℤ) - 1) :=
  C7_position_bounds cfgW gZero 1 (by decide) (by decide)

theorem bernoulliRvs_zero (u : Unit01) : bernoulliRvs 0 u = false := by
  rw [bernoulliRvs]
  simp [not_lt.2 u.2.1]

theorem bernoulliRvs_one (u : Unit01) : bernoulliRvs 1 u = true := by
  rw [bernoulliRvs]
  simp [u.2.2]

theorem update_recovered_fatal (a : Agent) (cfg : Config) :
    (a.update_recovered cfg).fatal = a.fatal := by
  rw [Agent.update_recovered]
  repeat' split
  all_goals rfl

theorem update_susceptible_fatal (a : Agent) :
    a.update_susceptible.fatal = a.fatal := by
  rw [Agent.update_susceptible]
  repeat' split
  all_goals rfl

theorem healthOf_update_recovered (x y : Agent) (cfg : Config)
    (h : healthOf x = healthOf y) :
    healthOf (x.update_recovered cfg) = healthOf (y.update_recovered cfg) := by
  obtain ⟨h1, h2, h3, h4, h5⟩ :
      x.infected = y.infected ∧ x.immune = y.immune ∧
        x.recovery_countdown = y.recovery_countdown ∧
        x.immunity_countdown = y.immunity_countdown ∧ x.fatal = y.fatal := by
    simpa [healthOf, Prod.ext_iff] using h
  rw [Agent.update_recovered, Agent.update_recovered]
  simp only [h1, h2, h3, h4, h5]
  split_ifs <;> (try simp [healthOf, h1, h2, h3, h4, h5]) <;> omega

theorem healthOf_update_susceptible (x y : Agent)
    (h : healthOf x = healthOf y) :
    healthOf x.update_susceptible = healthOf y.update_susceptible := by
  obtain ⟨h1, h2, h3, h4, h5⟩ :
      x.infected = y.infected ∧ x.immune = y.immune ∧
        x.recovery_countdown = y.recovery_countdown ∧
        x.immunity_countdown = y.immunity_countdown ∧ x.fatal = y.fatal := by
    simpa [healthOf, Prod.ext_iff] using h
  rw [Agent.update_susceptible, Agent.update_susceptible]
  simp only [h1, h2, h3, h4, h5]
  split_ifs <;> (try simp [healthOf, h1, h2, h3, h4, h5]) <;> omega

theorem F_infected (a : Agent) (cfg : Config) (hi : a.infected = true)
    (hm : a.immune = false) (hicd : a.immunity_countdown = 0)
    (hrcd : 2 ≤ a.recovery_countdown) :
    healthOf ((a.update_recovered cfg).update_susceptible) =
      (true, false, a.recovery_countdown - 1, 0, a.fatal) := by
  have hne : ¬a.recovery_countdown = 1 := by omega
  have hpos : a.recovery_countdown > 0 := by omega
  rw [Agent.update_recovered, if_neg hne, if_pos hpos, Agent.update_susceptible]
  simp [healthOf, hi, hm, hicd]

theorem F_recover (a : Agent) (cfg : Config) (hi : a.infected = true)
    (hm : a.immune = false) (hicd : a.immunity_countdown = 0)
    (hrcd : a.recovery_countdown = 1) (hip : 2 ≤ cfg.immunity_period) :
    healthOf ((a.update_recovered cfg).update_susceptible) =
      (false, true, 0, cfg.immunity_period - 1, a.fatal) := by
  have hne : ¬cfg.immunity_period = 1 := by omega
  have hpos : cfg.immunity_period > 0 := by omega
  rw [Agent.update_recovered, if_pos hrcd, if_pos (by simp [hrcd])]
  rw [Agent.update_susceptible]
  simp [healthOf, hne, hpos, hrcd]

theorem F_immune (a : Agent) (cfg : Config) (hi : a.infected = false)
    (hm : a.immune = true) (hrcd : a.recovery_countdown = 0)
    (hicd : 2 ≤ a.immunity_countdown) :
    healthOf ((a.update_recovered cfg).update_susceptible) =
      (false, true, 0, a.immunity_countdown - 1, a.fatal) := by
  rw [Agent.update_recovered,
    if_neg (show ¬a.recovery_countdown = 1 by omega)]
  rw [if_neg (show ¬a.recovery_countdown > 0 by omega)]
  rw [Agent.update_susceptible,
    if_neg (show ¬a.immunity_countdown = 1 by omega)]
  rw [if_pos (show a.immunity_countdown > 0 by omega)]
  simp [healthOf, hi, hm, hrcd]

theorem activateAt_singleton (cfg : Config) (a : Agent) (g : RNG)
    (hblock : (a.infected || a.immune) = true) :
    activateAt cfg [a] 0 g =
      ([((((a.move cfg.width cfg.height g).1.update_recovered cfg).update_susceptible).update_lockdown
          cfg (a.move cfg.width cfg.height g).2).1],
        ((((a.move cfg.width cfg.height g).1.update_recovered cfg).update_susceptible).update_lockdown
          cfg (a.move cfg.width cfg.height g).2).2) := by
  have hb2 : ((a.move cfg.width cfg.height g).1.infected ||
      (a.move cfg.width cfg.height g).1.immune) = true := by
    obtain ⟨p, hp⟩ := move_spec a cfg.width cfg.height g
    rw [hp]
    exact hblock
  rw [activateAt]
  simp only [List.getElem?_cons_zero, List.set_cons_zero]
  rw [update_infected_blocked _ cfg _ _ hb2]

theorem scheduleStep_singleton (cfg : Config) (a : Agent) (g : RNG) :
    scheduleStep cfg [a] g = activateAt cfg [a] 0 g := rfl

theorem removeDeathsAux_single_nonfatal (x : Agent) (g : RNG)
    (hx : x.fatal = false) : removeDeathsAux [x] g = ([x], 0, g) := by
  rw [removeDeathsAux.eq_def]
  simp [hx, removeDeathsAux]

theorem singleton_step (m : CovidModel) (a : Agent) (g : RNG)
    (hag : m.agents = [a]) (hflag : (a.infected || a.immune) = true)
    (hfat : a.fatal = false) (himp : m.cfg.infected_import = 0) :
    ∃ a2, (m.step g).1.agents = [a2] ∧
      healthOf a2 = healthOf ((a.update_recovered m.cfg).update_susceptible) := by
  obtain ⟨p, hp⟩ := move_spec a m.cfg.width m.cfg.height g
  have h1 : healthOf ((a.move m.cfg.width m.cfg.height g).1.update_recovered m.cfg) =
      healthOf (a.update_recovered m.cfg) :=
    healthOf_update_recovered _ _ _ (by rw [hp]; rfl)
  have h2 : healthOf (((a.move m.cfg.width m.cfg.height g).1.update_recovered
        m.cfg).update_susceptible) =
      healthOf ((a.update_recovered m.cfg).update_susceptible) :=
    healthOf_update_susceptible _ _ h1
  obtain ⟨bl, hbl⟩ := update_lockdown_spec
    (((a.move m.cfg.width m.cfg.height g).1.update_recovered m.cfg).update_susceptible)
    m.cfg ((a.move m.cfg.width m.cfg.height g).2)
  have h3 : healthOf (((((a.move m.cfg.width m.cfg.height g).1.update_recovered
        m.cfg).update_susceptible).update_lockdown m.cfg
          ((a.move m.cfg.width m.cfg.height g).2)).1) =
      healthOf ((a.update_recovered m.cfg).update_susceptible) := by
    rw [hbl]
    exact h2
  have hFfat : ((a.update_recovered m.cfg).update_susceptible).fatal = false := by
    rw [update_susceptible_fatal, update_recovered_fatal, hfat]
  have hA1fat : (((((a.move m.cfg.width m.cfg.height g).1.update_recovered
        m.cfg).update_susceptible).update_lockdown m.cfg
          ((a.move m.cfg.width m.cfg.height g).2)).1).fatal = false := by
    have hcomp := congrArg (fun t : Bool × Bool × ℕ × ℕ × Bool => t.2.2.2.2) h3
    simp only [healthOf] at hcomp
    rw [hcomp, hFfat]
  have hagc : m.collect.agents = [a] := hag
  have hcc : m.collect.cfg = m.cfg := rfl
  have hz : bernoulliRvs (m.preImport g).1.cfg.infected_import
      (m.preImport g).2.head = false := by
    have hcfg : (m.preImport g).1.cfg.infected_import = (0 : ℚ) := himp
    rw [hcfg]
    exact bernoulliRvs_zero _
  rw [CovidModel.step, if_neg (by simp [hz])]
  rw [CovidModel.preImport, CovidModel.remove_deaths]
  simp only [hagc, hcc, scheduleStep_singleton,
    activateAt_singleton m.cfg a g hflag]
  rw [removeDeathsAux_single_nonfatal _ _ hA1fat]
  exact ⟨_, rfl, h3⟩

theorem stepN_add (t s : ℕ) :
    ∀ (m : CovidModel) (g : RNG),
      CovidModel.stepN (t + s) m g =
        CovidModel.stepN s (CovidModel.stepN t m g).1 (CovidModel.stepN t m g).2 := by
  induction t with
  | zero =>
      intro m g
      rw [Nat.zero_add]
      rfl
  | succ t ih =>
      intro m g
      have he : t + 1 + s = (t + s) + 1 := by omega
      calc CovidModel.stepN (t + 1 + s) m g
          = CovidModel.stepN ((t + s) + 1) m g := by rw [he]
        _ = CovidModel.stepN (t + s) (m.step g).1 (m.step g).2 := rfl
        _ = CovidModel.stepN s
              (CovidModel.stepN t (m.step g).1 (m.step g).2).1
              (CovidModel.stepN t (m.step g).1 (m.step g).2).2 := ih _ _
        _ = CovidModel.stepN s (CovidModel.stepN (t + 1) m g).1
              (CovidModel.stepN (t + 1) m g).2 := rfl

theorem stepsN_infected (t : ℕ) :
    ∀ (m : CovidModel) (g : RNG) (a : Agent) (r : ℕ), m.agents = [a] →
      m.cfg.infected_import = 0 →
      healthOf a = (true, false, r + t, 0, false) → 1 ≤ r →
      ∃ a2, (CovidModel.stepN t m g).1.agents = [a2] ∧
        healthOf a2 = (true, false, r, 0, false) := by
  induction t with
  | zero =>
      intro m g a r hag himp h hr
      exact ⟨a, hag, by simpa using h⟩
  | succ t ih =>
      intro m g a r hag himp h hr
      obtain ⟨hf1, hf2, hf3, hf4, hf5⟩ :
          a.infected = true ∧ a.immune = false ∧
            a.recovery_countdown = r + (t + 1) ∧ a.immunity_countdown = 0 ∧
            a.fatal = false := by
        simpa [healthOf, Prod.ext_iff] using h
      obtain ⟨a2, hag2, hh2⟩ :=
        singleton_step m a g hag (by rw [hf1]; rfl) hf5 himp
      have hF := F_infected a m.cfg hf1 hf2 hf4 (by omega)
      rw [hf3, hf5] at hF
      have harith : r + (t + 1) - 1 = r + t := by omega
      rw [harith] at hF
      have hh2b : healthOf a2 = (true, false, r + t, 0, false) := by
        rw [hh2, hF]
      rw [CovidModel.stepN]
      exact ih (m.step g).1 (m.step g).2 a2 r hag2
        (by rw [step_cfg]; exact himp) hh2b hr

theorem stepsN_immune (t : ℕ) :
    ∀ (m : CovidModel) (g : RNG) (a : Agent) (c : ℕ), m.agents = [a] →
      m.cfg.infected_import = 0 →
      healthOf a = (false, true, 0, c, false) → t + 1 ≤ c →
      ∃ a2, (CovidModel.stepN t m g).1.agents = [a2] ∧
        healthOf a2 = (false, true, 0, c - t, false) := by
  induction t with
  | zero =>
      intro m g a c hag himp h hc
      exact ⟨a, hag, by simpa using h⟩
  | succ t ih =>
      intro m g a c hag himp h hc
      obtain ⟨hf1, hf2, hf3, hf4, hf5⟩ :
          a.infected = false ∧ a.immune = true ∧
            a.recovery_countdown = 0 ∧ a.immunity_countdown = c ∧
            a.fatal = false := by
        simpa [healthOf, Prod.ext_iff] using h
      obtain ⟨a2, hag2, hh2⟩ :=
        singleton_step m a g hag (by rw [hf2]; simp) hf5 himp
      have hF := F_immune a m.cfg hf1 hf2 hf3 (by omega)
      rw [hf4, hf5] at hF
      have hh2b : healthOf a2 = (false, true, 0, c - 1, false) := by
        rw [hh2, hF]
      rw [CovidModel.stepN]
      obtain ⟨a3, hag3, hh3⟩ := ih (m.step g).1 (m.step g).2 a2 (c - 1) hag2
        (by rw [step_cfg]; exact himp) hh2b (by omega)
      refine ⟨a3, hag3, ?_⟩
      rw [hh3]
      have : c - 1 - t = c - (t + 1) := by omega
      rw [this]

set_option maxRecDepth 100000 in
/-- Claim C3 fails on the code: the constructor staggers the initial
recovery countdown over `[1, infection_period]`, so the transition to
immune need not happen at step 5, and immunity can lapse again before
step 5.  `cfgC3` satisfies every constraint of the claim (one agent,
`init_infected = 1`, `infection_period = 5`, `prob_fatal = 0`); with the
all-zero generator the countdown draw is 1, the agent recovers at step 1,
its immunity (period 2) lapses at step 2, and after exactly 5 steps it is
neither infected nor immune. -/
theorem C3_counterexample :
    cfgC3.no_agents = 1 ∧ cfgC3.init_infected = 1 ∧
      cfgC3.infection_period = 5 ∧ cfgC3.prob_fatal = 0 ∧
      ((runModel cfgC3 gZero 5).1.agents.map fun a => (a.infected, a.immune)) =
        [(false, false)] := by
  exact ⟨rfl, rfl, rfl, rfl, by decide⟩

/-- Claim C3 (amended): under the claim's constraints, with importation
disabled and an immunity period of at least 6 steps, after exactly 5
steps the one agent has `infected = false` and `immune = true` — it
transitioned to immune at step `k`, where `k ∈ [1,5]` is the constructor's
staggered countdown draw, and its immunity has not yet lapsed. -/
theorem C3_amended (cfg : Config) (g : RNG)
    (h1 : cfg.no_agents = 1) (h2 : cfg.init_infected = 1)
    (h3 : cfg.infection_period = 5) (h4 : cfg.prob_fatal = 0)
    (h5 : cfg.infected_import = 0) (h6 : 6 ≤ cfg.immunity_period) :
    ∃ a, (runModel cfg g 5).1.agents = [a] ∧ a.infected = false ∧
      a.immune = true := by
  have hinf0 : bernoulliRvs cfg.init_infected g.tail.head = true := by
    rw [h2]
    exact bernoulliRvs_one _
  have hag0 : (CovidModel.init cfg g).1.agents =
      [{ (Agent.init 0 cfg g).1 with pos :=
          ((randbelow cfg.width (Agent.init 0 cfg g).2.head : ℤ),
           (randbelow cfg.height (Agent.init 0 cfg g).2.tail.head : ℤ)) }] := by
    show (createAgents cfg 0 cfg.no_agents g).1 = _
    rw [h1, createAgents, createAgents]
  have hh0 : healthOf (Agent.init 0 cfg g).1 =
      (true, false, 1 + randbelow cfg.infection_period g.tail.tail.head, 0,
        false) := by
    rw [Agent.init, if_pos hinf0]
    simp [healthOf, hinf0]
  have hh0b : healthOf
      ({ (Agent.init 0 cfg g).1 with pos :=
          ((randbelow cfg.width (Agent.init 0 cfg g).2.head : ℤ),
           (randbelow cfg.height (Agent.init 0 cfg g).2.tail.head : ℤ)) }) =
      (true, false, 1 + randbelow cfg.infection_period g.tail.tail.head, 0,
        false) := hh0
  have hb := randbelow_lt cfg.infection_period g.tail.tail.head
    (by rw [h3]; norm_num)
  have hrb4 : randbelow cfg.infection_period g.tail.tail.head ≤ 4 := by omega
  have h5d : (5 : ℕ) = randbelow cfg.infection_period g.tail.tail.head +
      (1 + (4 - randbelow cfg.infection_period g.tail.tail.head)) := by omega
  show ∃ a, (CovidModel.stepN 5 (CovidModel.init cfg g).1
      (CovidModel.init cfg g).2).1.agents = [a] ∧ a.infected = false ∧
      a.immune = true
  rw [h5d, stepN_add]
  obtain ⟨a1, hag1, hh1⟩ := stepsN_infected
    (randbelow cfg.infection_period g.tail.tail.head)
    (CovidModel.init cfg g).1 (CovidModel.init cfg g).2 _ 1 hag0 h5 hh0b
    (le_refl 1)
  obtain ⟨hg1, hg2, hg3, hg4, hg5⟩ :
      a1.infected = true ∧ a1.immune = false ∧ a1.recovery_countdown = 1 ∧
        a1.immunity_countdown = 0 ∧ a1.fatal = false := by
    simpa [healthOf, Prod.ext_iff] using hh1
  rw [stepN_add 1]
  obtain ⟨a2, hag2, hh2⟩ := singleton_step
    (CovidModel.stepN (randbelow cfg.infection_period g.tail.tail.head)
      (CovidModel.init cfg g).1 (CovidModel.init cfg g).2).1 a1
    (CovidModel.stepN (randbelow cfg.infection_period g.tail.tail.head)
      (CovidModel.init cfg g).1 (CovidModel.init cfg g).2).2 hag1
    (by rw [hg1]; rfl) hg5 (by rw [stepN_cfg]; exact h5)
  have hF := F_recover a1
    (CovidModel.stepN (randbelow cfg.infection_period g.tail.tail.head)
      (CovidModel.init cfg g).1 (CovidModel.init cfg g).2).1.cfg
    hg1 hg2 hg4 hg3 (by rw [stepN_cfg]; show 2 ≤ cfg.immunity_period; omega)
  have hh2b : healthOf a2 = (false, true, 0, cfg.immunity_period - 1,
      false) := by
    rw [hh2, hF, hg5]
    have hip : (CovidModel.stepN (randbelow cfg.infection_period g.tail.tail.head)
        (CovidModel.init cfg g).1 (CovidModel.init cfg g).2).1.cfg.immunity_period =
        cfg.immunity_period := by
      rw [stepN_cfg]
      rfl
    rw [hip]
  obtain ⟨a5, hag5, hh5⟩ := stepsN_immune
    (4 - randbelow cfg.infection_period g.tail.tail.head) _ _ a2
    (cfg.immunity_period - 1) hag2
    (by rw [step_cfg, stepN_cfg]; exact h5) hh2b (by omega)
  obtain ⟨hq1, hq2, _, _, _⟩ :
      a5.infected = false ∧ a5.immune = true ∧ a5.recovery_countdown = 0 ∧
        a5.immunity_countdown = cfg.immunity_period - 1 -
          (4 - randbelow cfg.infection_period g.tail.tail.head) ∧
        a5.fatal = false := by
    simpa [healthOf, Prod.ext_iff] using hh5
  exact ⟨a5, hag5, hq1, hq2⟩

/-- Witness for the amended C3 at the concrete configuration `cfgC3W`
(immunity period 6) and the all-zero generator. -/
theorem C3_amended_witness :
    ∃ a, (runModel cfgC3W gZero 5).1.agents = [a] ∧ a.infected = false ∧
      a.immune = true :=
  C3_amended cfgC3W gZero rfl rfl rfl rfl rfl (by norm_num [cfgC3W])
